import Mathlib

/-!
# Guarded-execution register banking of the T8030 CPU model

Shallow embedding of `hw/arm/t8030_gxf.c`: the register context, the raw field
accessors, the access controller `access_gxf`, the seven dual-view handler
pairs and the registration table `t8030gxf_cp_reginfo`.

Conventions of the embedding.

* A `uint64_t` is a natural number below `2 ^ 64`; the only arithmetic in the
  file is `value & ~0x1FULL`, written with the 64-bit constant
  `0xFFFFFFFFFFFFFFE0`.
* A C function receiving `CPUARMState *env` becomes a function that takes the
  context and hands back the context it leaves behind, next to its result.
* `assert(ri->fieldoffset)` aborts the process: handlers return `none` there.
* A function pointer stored in the table is the name of the function
  (`ReadFn`, `WriteFn`, `AccessFn`); `call_readfn` and `call_writefn` run it.
-/

namespace T8030Gxf

/-! ## Data model -/

/-- Modelled from the spec: the enumeration `CPAccessResult`, declared in
`target/arm/cpu.h`, outside this file; the two outcomes the access
controller has (section 4.4: permit, trap). -/
inductive CPAccessResult where
  | CP_ACCESS_OK
  | CP_ACCESS_TRAP
  deriving DecidableEq

/-- Modelled from the spec: the member `gxf` of `CPUARMState` (declared in
`target/arm/cpu.h`, outside this file): the mode flag, the entry vector
`gxf_enter_el[1]` and the seven shadow slots `*_gl[1]`, each as wide as the
value a handler receives (section 3). -/
structure GXFState where
  guarded : Bool
  gxf_enter_el1 : Nat
  sp_gl1 : Nat
  tpidr_gl1 : Nat
  vbar_gl1 : Nat
  spsr_gl1 : Nat
  elr_gl1 : Nat
  esr_gl1 : Nat
  far_gl1 : Nat
  deriving DecidableEq

/-- Modelled from the spec: the members of `env->cp15` the file touches
(declared outside this file). `vbar_el1` is the normal-bank vector base:
`cp15.vbar_ns` and `cp15.vbar_el[1]` are two names of this one slot
(section 3 has a single `normal.vbar`); `vbar_s` is the secure AArch32 bank
named by the VBAR entry. `vmsa_lock_el1` is the lock register. -/
structure CP15State where
  tpidr_el1 : Nat
  vbar_el1 : Nat
  vbar_s : Nat
  esr_el1 : Nat
  far_el1 : Nat
  vmsa_lock_el1 : Nat
  deriving DecidableEq

/-- Modelled from the spec: the part of `CPUARMState` the file touches
(declared outside this file): `sp_el[1]`, `elr_el[1]`,
`banked_spsr[BANK_SVC]`, `cp15` and `gxf`. -/
structure CPUARMState where
  sp_el1 : Nat
  elr_el1 : Nat
  banked_spsr_svc : Nat
  cp15 : CP15State
  gxf : GXFState
  deriving DecidableEq

/-- The `offsetof(CPUARMState, ...)` expressions that occur in the table. -/
inductive FieldOffset where
  | vbar_s
  | vbar_ns
  | gxf_enter_el1
  | tpidr_el1
  | vbar_el1
  | banked_spsr_svc
  | esr_el1
  | elr_el1
  | far_el1
  deriving DecidableEq

/-- Values of `.state` in a register description. -/
inductive CPState where
  | ARM_CP_STATE_AA32
  | ARM_CP_STATE_AA64
  | ARM_CP_STATE_BOTH
  deriving DecidableEq

/-- Flags that can be or-ed into `.type`. -/
inductive CPFlag where
  | ARM_CP_64BIT
  | ARM_CP_OVERRIDE
  | ARM_CP_ALIAS
  deriving DecidableEq

/-- Value of `.cp` when it is given. -/
inductive CPSpace where
  | CP_REG_ARM64_SYSREG_CP
  deriving DecidableEq

/-- Value of `.access`. -/
inductive CPRights where
  | PL1_RW
  deriving DecidableEq

/-- Functions a table entry can name in `.accessfn`. -/
inductive AccessFn where
  | access_tvm_trvm
  | access_gxf
  deriving DecidableEq

/-- Functions of the file with the signature of `.readfn`. -/
inductive ReadFn where
  | sp_el1_read
  | tpidr_el1_read
  | vbar_el1_read
  | spsr_el1_read
  | elr_el1_read
  | esr_el1_read
  | far_el1_read
  deriving DecidableEq

/-- Functions of the file with the signature of `.writefn`. -/
inductive WriteFn where
  | sp_el1_write
  | tpidr_el1_write
  | vbar_el1_write
  | spsr_el1_write
  | elr_el1_write
  | esr_el1_write
  | far_el1_write
  deriving DecidableEq

/-- Modelled from the spec: the members of `ARMCPRegInfo` (declared in
`target/arm/cpu.h`, outside this file) that the table initialises; a
member left out of an initialiser is zero, here `none`, `[]` or `0`. -/
structure ARMCPRegInfo where
  name : String
  cp : Option CPSpace := none
  state : CPState
  type : List CPFlag := []
  opc0 : Nat
  opc1 : Nat
  crn : Nat
  crm : Nat
  opc2 : Nat
  access : CPRights
  accessfn : Option AccessFn := none
  readfn : Option ReadFn := none
  writefn : Option WriteFn := none
  fieldoffset : Option FieldOffset := none
  bank_fieldoffsets : Option FieldOffset × Option FieldOffset := (none, none)
  resetvalue : Nat := 0
  deriving DecidableEq

/-! ## Raw field access -/

/-- Modelled from the spec: the helper `cpreg_field_is_64bit` of
`target/arm/cpu.h` (outside this file): an AArch64 register, or one
flagged `ARM_CP_64BIT`, has a 64-bit field (section 3: pointer-width slots). -/
def cpreg_field_is_64bit (ri : ARMCPRegInfo) : Bool :=
  ri.state == CPState.ARM_CP_STATE_AA64 || ri.type.contains CPFlag.ARM_CP_64BIT

/-- Modelled from the spec: the macro `CPREG_FIELD64(env, ri)` as an rvalue
(macro defined outside this file): the slot found at the given offset. -/
def CPREG_FIELD64 (env : CPUARMState) (off : FieldOffset) : Nat :=
  match off with
  | .vbar_s => env.cp15.vbar_s
  | .vbar_ns => env.cp15.vbar_el1
  | .gxf_enter_el1 => env.gxf.gxf_enter_el1
  | .tpidr_el1 => env.cp15.tpidr_el1
  | .vbar_el1 => env.cp15.vbar_el1
  | .banked_spsr_svc => env.banked_spsr_svc
  | .esr_el1 => env.cp15.esr_el1
  | .elr_el1 => env.elr_el1
  | .far_el1 => env.cp15.far_el1

/-- Modelled from the spec: the macro `CPREG_FIELD64(env, ri)` as an lvalue
(macro defined outside this file): assignment to the slot at the given offset. -/
def CPREG_FIELD64_set (env : CPUARMState) (off : FieldOffset) (value : Nat) : CPUARMState :=
  match off with
  | .vbar_s => { env with cp15 := { env.cp15 with vbar_s := value } }
  | .vbar_ns => { env with cp15 := { env.cp15 with vbar_el1 := value } }
  | .gxf_enter_el1 => { env with gxf := { env.gxf with gxf_enter_el1 := value } }
  | .tpidr_el1 => { env with cp15 := { env.cp15 with tpidr_el1 := value } }
  | .vbar_el1 => { env with cp15 := { env.cp15 with vbar_el1 := value } }
  | .banked_spsr_svc => { env with banked_spsr_svc := value }
  | .esr_el1 => { env with cp15 := { env.cp15 with esr_el1 := value } }
  | .elr_el1 => { env with elr_el1 := value }
  | .far_el1 => { env with cp15 := { env.cp15 with far_el1 := value } }

/-- Modelled from the spec: the macro `CPREG_FIELD32(env, ri)` as an rvalue
(macro defined outside this file): the low 32 bits of the slot. -/
def CPREG_FIELD32 (env : CPUARMState) (off : FieldOffset) : Nat :=
  CPREG_FIELD64 env off % 2 ^ 32

/-- Modelled from the spec: the macro `CPREG_FIELD32(env, ri)` as an lvalue
(macro defined outside this file): the low 32 bits of the slot are replaced by the
value truncated to 32 bits, the high bits stay. -/
def CPREG_FIELD32_set (env : CPUARMState) (off : FieldOffset) (value : Nat) : CPUARMState :=
  CPREG_FIELD64_set env off (CPREG_FIELD64 env off / 2 ^ 32 * 2 ^ 32 + value % 2 ^ 32)

/-- Source `raw_read` (lines 11-19). -/
def raw_read (env : CPUARMState) (ri : ARMCPRegInfo) : Option (Nat × CPUARMState) :=
  match ri.fieldoffset with
  | none => none
  | some off =>
    if cpreg_field_is_64bit ri then
      some (CPREG_FIELD64 env off, env)
    else
      some (CPREG_FIELD32 env off, env)

/-- Source `raw_write` (lines 21-30). -/
def raw_write (env : CPUARMState) (ri : ARMCPRegInfo) (value : Nat) : Option CPUARMState :=
  match ri.fieldoffset with
  | none => none
  | some off =>
    if cpreg_field_is_64bit ri then
      some (CPREG_FIELD64_set env off value)
    else
      some (CPREG_FIELD32_set env off value)

/-! ## Access controller -/

/-- Source `access_gxf` (lines 32-39). -/
def access_gxf (env : CPUARMState) (_ri : ARMCPRegInfo) (_isread : Bool) :
    CPAccessResult × CPUARMState :=
  if env.gxf.guarded then
    (CPAccessResult.CP_ACCESS_OK, env)
  else
    (CPAccessResult.CP_ACCESS_TRAP, env)

/-! ## Dual-view handlers -/

/-- Source `sp_el1_read` (lines 41-48). -/
def sp_el1_read (env : CPUARMState) (_ri : ARMCPRegInfo) : Option (Nat × CPUARMState) :=
  if env.gxf.guarded then
    some (env.gxf.sp_gl1, env)
  else
    some (env.sp_el1, env)

/-- Source `sp_el1_write` (lines 50-57). -/
def sp_el1_write (env : CPUARMState) (_ri : ARMCPRegInfo) (value : Nat) : Option CPUARMState :=
  if env.gxf.guarded then
    some { env with gxf := { env.gxf with sp_gl1 := value } }
  else
    some { env with sp_el1 := value }

/-- Source `tpidr_el1_read` (lines 59-66). -/
def tpidr_el1_read (env : CPUARMState) (_ri : ARMCPRegInfo) : Option (Nat × CPUARMState) :=
  if env.gxf.guarded then
    some (env.gxf.tpidr_gl1, env)
  else
    some (env.cp15.tpidr_el1, env)

/-- Source `tpidr_el1_write` (lines 68-75). -/
def tpidr_el1_write (env : CPUARMState) (_ri : ARMCPRegInfo) (value : Nat) : Option CPUARMState :=
  if env.gxf.guarded then
    some { env with gxf := { env.gxf with tpidr_gl1 := value } }
  else
    some { env with cp15 := { env.cp15 with tpidr_el1 := value } }

/-- Source `vbar_el1_read` (lines 77-84). -/
def vbar_el1_read (env : CPUARMState) (ri : ARMCPRegInfo) : Option (Nat × CPUARMState) :=
  if env.gxf.guarded then
    some (env.gxf.vbar_gl1, env)
  else
    raw_read env ri

/-- Source `vbar_el1_write` (lines 86-97). The macro `VMSA_LOCK_VBAR_EL1` is
defined in a header outside this file and is a parameter here.
`0xFFFFFFFFFFFFFFE0` is `~0x1FULL`. -/
def vbar_el1_write (VMSA_LOCK_VBAR_EL1 : Nat) (env : CPUARMState) (ri : ARMCPRegInfo)
    (value : Nat) : Option CPUARMState :=
  if env.gxf.guarded then
    some { env with gxf := { env.gxf with vbar_gl1 := value &&& 0xFFFFFFFFFFFFFFE0 } }
  else
    if !env.gxf.guarded && (env.cp15.vmsa_lock_el1 &&& VMSA_LOCK_VBAR_EL1 != 0) then
      some env
    else
      raw_write env ri (value &&& 0xFFFFFFFFFFFFFFE0)

/-- Source `spsr_el1_read` (lines 99-106). -/
def spsr_el1_read (env : CPUARMState) (_ri : ARMCPRegInfo) : Option (Nat × CPUARMState) :=
  if env.gxf.guarded then
    some (env.gxf.spsr_gl1, env)
  else
    some (env.banked_spsr_svc, env)

/-- Source `spsr_el1_write` (lines 108-115). -/
def spsr_el1_write (env : CPUARMState) (_ri : ARMCPRegInfo) (value : Nat) : Option CPUARMState :=
  if env.gxf.guarded then
    some { env with gxf := { env.gxf with spsr_gl1 := value } }
  else
    some { env with banked_spsr_svc := value }

/-- Source `elr_el1_read` (lines 117-124). -/
def elr_el1_read (env : CPUARMState) (_ri : ARMCPRegInfo) : Option (Nat × CPUARMState) :=
  if env.gxf.guarded then
    some (env.gxf.elr_gl1, env)
  else
    some (env.elr_el1, env)

/-- Source `elr_el1_write` (lines 126-133). -/
def elr_el1_write (env : CPUARMState) (_ri : ARMCPRegInfo) (value : Nat) : Option CPUARMState :=
  if env.gxf.guarded then
    some { env with gxf := { env.gxf with elr_gl1 := value } }
  else
    some { env with elr_el1 := value }

/-- Source `esr_el1_read` (lines 135-142). -/
def esr_el1_read (env : CPUARMState) (_ri : ARMCPRegInfo) : Option (Nat × CPUARMState) :=
  if env.gxf.guarded then
    some (env.gxf.esr_gl1, env)
  else
    some (env.cp15.esr_el1, env)

/-- Source `esr_el1_write` (lines 144-151). -/
def esr_el1_write (env : CPUARMState) (_ri : ARMCPRegInfo) (value : Nat) : Option CPUARMState :=
  if env.gxf.guarded then
    some { env with gxf := { env.gxf with esr_gl1 := value } }
  else
    some { env with cp15 := { env.cp15 with esr_el1 := value } }

/-- Source `far_el1_read` (lines 153-160). -/
def far_el1_read (env : CPUARMState) (_ri : ARMCPRegInfo) : Option (Nat × CPUARMState) :=
  if env.gxf.guarded then
    some (env.gxf.far_gl1, env)
  else
    some (env.cp15.far_el1, env)

/-- Source `far_el1_write` (lines 162-169). -/
def far_el1_write (env : CPUARMState) (_ri : ARMCPRegInfo) (value : Nat) : Option CPUARMState :=
  if env.gxf.guarded then
    some { env with gxf := { env.gxf with far_gl1 := value } }
  else
    some { env with cp15 := { env.cp15 with far_el1 := value } }

/-- Call through a `.readfn` pointer. -/
def call_readfn (fn : ReadFn) (env : CPUARMState) (ri : ARMCPRegInfo) :
    Option (Nat × CPUARMState) :=
  match fn with
  | .sp_el1_read => sp_el1_read env ri
  | .tpidr_el1_read => tpidr_el1_read env ri
  | .vbar_el1_read => vbar_el1_read env ri
  | .spsr_el1_read => spsr_el1_read env ri
  | .elr_el1_read => elr_el1_read env ri
  | .esr_el1_read => esr_el1_read env ri
  | .far_el1_read => far_el1_read env ri

/-- Call through a `.writefn` pointer. -/
def call_writefn (VMSA_LOCK_VBAR_EL1 : Nat) (fn : WriteFn) (env : CPUARMState)
    (ri : ARMCPRegInfo) (value : Nat) : Option CPUARMState :=
  match fn with
  | .sp_el1_write => sp_el1_write env ri value
  | .tpidr_el1_write => tpidr_el1_write env ri value
  | .vbar_el1_write => vbar_el1_write VMSA_LOCK_VBAR_EL1 env ri value
  | .spsr_el1_write => spsr_el1_write env ri value
  | .elr_el1_write => elr_el1_write env ri value
  | .esr_el1_write => esr_el1_write env ri value
  | .far_el1_write => far_el1_write env ri value

/-! ## Registration table -/

/-- Entry `TPIDR_EL1` of the table (lines 172-176). -/
def reginfo_TPIDR_EL1 : ARMCPRegInfo :=
  { name := "TPIDR_EL1", state := .ARM_CP_STATE_AA64,
    opc0 := 3, opc1 := 0, opc2 := 4, crn := 13, crm := 0,
    access := .PL1_RW, type := [.ARM_CP_OVERRIDE],
    readfn := some .tpidr_el1_read, writefn := some .tpidr_el1_write,
    resetvalue := 0 }

/-- Entry `VBAR` of the table (lines 177-183). -/
def reginfo_VBAR : ARMCPRegInfo :=
  { name := "VBAR", state := .ARM_CP_STATE_BOTH,
    opc0 := 3, crn := 12, crm := 0, opc1 := 0, opc2 := 0,
    access := .PL1_RW, type := [.ARM_CP_OVERRIDE],
    readfn := some .vbar_el1_read, writefn := some .vbar_el1_write,
    bank_fieldoffsets := (some .vbar_s, some .vbar_ns),
    resetvalue := 0 }

/-- Entry `SPSR_EL1` of the table (lines 184-188). -/
def reginfo_SPSR_EL1 : ARMCPRegInfo :=
  { name := "SPSR_EL1", state := .ARM_CP_STATE_AA64,
    type := [.ARM_CP_ALIAS, .ARM_CP_OVERRIDE],
    opc0 := 3, opc1 := 0, crn := 4, crm := 0, opc2 := 0,
    access := .PL1_RW,
    readfn := some .spsr_el1_read, writefn := some .spsr_el1_write }

/-- Entry `ELR_EL1` of the table (lines 189-193). -/
def reginfo_ELR_EL1 : ARMCPRegInfo :=
  { name := "ELR_EL1", state := .ARM_CP_STATE_AA64,
    type := [.ARM_CP_ALIAS, .ARM_CP_OVERRIDE],
    opc0 := 3, opc1 := 0, crn := 4, crm := 0, opc2 := 1,
    access := .PL1_RW,
    readfn := some .elr_el1_read, writefn := some .elr_el1_write }

/-- Entry `ESR_EL1` of the table (lines 194-199). -/
def reginfo_ESR_EL1 : ARMCPRegInfo :=
  { name := "ESR_EL1", state := .ARM_CP_STATE_AA64,
    opc0 := 3, crn := 5, crm := 2, opc1 := 0, opc2 := 0,
    access := .PL1_RW, type := [.ARM_CP_OVERRIDE],
    accessfn := some .access_tvm_trvm,
    readfn := some .esr_el1_read, writefn := some .esr_el1_write,
    resetvalue := 0 }

/-- Entry `FAR_EL1` of the table (lines 200-205). -/
def reginfo_FAR_EL1 : ARMCPRegInfo :=
  { name := "FAR_EL1", state := .ARM_CP_STATE_AA64,
    opc0 := 3, crn := 6, crm := 0, opc1 := 0, opc2 := 0,
    type := [.ARM_CP_OVERRIDE],
    access := .PL1_RW, accessfn := some .access_tvm_trvm,
    readfn := some .far_el1_read, writefn := some .far_el1_write,
    resetvalue := 0 }

/-- Entry `GXF_ENTER_EL1` of the table (lines 206-210). -/
def reginfo_GXF_ENTER_EL1 : ARMCPRegInfo :=
  { name := "GXF_ENTER_EL1", cp := some .CP_REG_ARM64_SYSREG_CP, state := .ARM_CP_STATE_AA64,
    opc0 := 3, opc1 := 6, crn := 15, crm := 8, opc2 := 1,
    access := .PL1_RW, resetvalue := 0,
    fieldoffset := some .gxf_enter_el1 }

/-- Entry `TPIDR_GL11` of the table (lines 211-216). -/
def reginfo_TPIDR_GL11 : ARMCPRegInfo :=
  { name := "TPIDR_GL11", cp := some .CP_REG_ARM64_SYSREG_CP, state := .ARM_CP_STATE_AA64,
    opc0 := 3, opc1 := 6, crn := 15, crm := 9, opc2 := 1,
    access := .PL1_RW, accessfn := some .access_gxf,
    type := [.ARM_CP_ALIAS],
    fieldoffset := some .tpidr_el1 }

/-- Entry `VBAR_GL11` of the table (lines 217-222). -/
def reginfo_VBAR_GL11 : ARMCPRegInfo :=
  { name := "VBAR_GL11", cp := some .CP_REG_ARM64_SYSREG_CP, state := .ARM_CP_STATE_AA64,
    opc0 := 3, opc1 := 6, crn := 15, crm := 9, opc2 := 2,
    access := .PL1_RW, accessfn := some .access_gxf,
    type := [.ARM_CP_ALIAS],
    fieldoffset := some .vbar_el1 }

/-- Entry `SPSR_GL11` of the table (lines 223-228). -/
def reginfo_SPSR_GL11 : ARMCPRegInfo :=
  { name := "SPSR_GL11", cp := some .CP_REG_ARM64_SYSREG_CP, state := .ARM_CP_STATE_AA64,
    opc0 := 3, opc1 := 6, crn := 15, crm := 9, opc2 := 3,
    access := .PL1_RW, accessfn := some .access_gxf,
    type := [.ARM_CP_ALIAS],
    fieldoffset := some .banked_spsr_svc }

/-- Entry `ESR_GL11` of the table (lines 229-234). -/
def reginfo_ESR_GL11 : ARMCPRegInfo :=
  { name := "ESR_GL11", cp := some .CP_REG_ARM64_SYSREG_CP, state := .ARM_CP_STATE_AA64,
    opc0 := 3, opc1 := 6, crn := 15, crm := 9, opc2 := 5,
    access := .PL1_RW, accessfn := some .access_gxf,
    type := [.ARM_CP_ALIAS],
    fieldoffset := some .esr_el1 }

/-- Entry `ELR_GL11` of the table (lines 235-240). -/
def reginfo_ELR_GL11 : ARMCPRegInfo :=
  { name := "ELR_GL11", cp := some .CP_REG_ARM64_SYSREG_CP, state := .ARM_CP_STATE_AA64,
    opc0 := 3, opc1 := 6, crn := 15, crm := 9, opc2 := 6,
    access := .PL1_RW, accessfn := some .access_gxf,
    type := [.ARM_CP_ALIAS],
    fieldoffset := some .elr_el1 }

/-- Entry `FAR_GL11` of the table (lines 241-246). -/
def reginfo_FAR_GL11 : ARMCPRegInfo :=
  { name := "FAR_GL11", cp := some .CP_REG_ARM64_SYSREG_CP, state := .ARM_CP_STATE_AA64,
    opc0 := 3, opc1 := 6, crn := 15, crm := 9, opc2 := 7,
    access := .PL1_RW, accessfn := some .access_gxf,
    type := [.ARM_CP_ALIAS],
    fieldoffset := some .far_el1 }

/-- Source `t8030gxf_cp_reginfo` (lines 171-248): the entries before
`REGINFO_SENTINEL`, in the order of the source. -/
def t8030gxf_cp_reginfo : List ARMCPRegInfo :=
  [ reginfo_TPIDR_EL1,
    reginfo_VBAR,
    reginfo_SPSR_EL1,
    reginfo_ELR_EL1,
    reginfo_ESR_EL1,
    reginfo_FAR_EL1,
    reginfo_GXF_ENTER_EL1,
    reginfo_TPIDR_GL11,
    reginfo_VBAR_GL11,
    reginfo_SPSR_GL11,
    reginfo_ESR_GL11,
    reginfo_ELR_GL11,
    reginfo_FAR_GL11 ]

/-! ## Registration and access through the table -/

/-- Modelled from the spec: the description a handler receives for an AArch64
access. The registration code (`define_arm_cp_regs`, defined outside this
file) stores one copy of an entry per execution state; the AArch64 copy has
`state = ARM_CP_STATE_AA64` and, for an entry that gives both
`bank_fieldoffsets`, the non-secure one as `fieldoffset`, so that the
normal-mode vector base access reaches `normal.vbar` (section 4.2). -/
def aa64_view (r : ARMCPRegInfo) : ARMCPRegInfo :=
  { r with
    state := CPState.ARM_CP_STATE_AA64
    fieldoffset :=
      match r.bank_fieldoffsets with
      | (some _, some ns) => some ns
      | _ => r.fieldoffset }

/-- Modelled from the spec: `define_arm_cp_regs` (defined outside this file),
as far as AArch64 accesses go: every entry is registered under its AArch64
description. -/
def define_arm_cp_regs (regs : List ARMCPRegInfo) : List ARMCPRegInfo :=
  regs.map aa64_view

/-- Source `t8030cpu_init_gxf` (lines 250-253): the registered descriptions. -/
def t8030cpu_init_gxf : List ARMCPRegInfo :=
  define_arm_cp_regs t8030gxf_cp_reginfo

/-- Result of one register access made through the table: refused by the
access function (context as the check left it), carried out, or stopped by a
failed assertion. -/
inductive CPOutcome (α : Type) where
  | trap (env : CPUARMState)
  | done (a : α)
  | abort
  deriving DecidableEq

/-- Modelled from the spec: the access check the framework makes before it
touches a register (sections 2 and 4.4): the entry's `accessfn` when it has
one. `access_tvm_trvm` is only declared in this file (lines 8-9) and is a
parameter, a predicate on the context (section 6). -/
def cp_access_check (access_tvm_trvm : CPUARMState → ARMCPRegInfo → Bool → CPAccessResult)
    (env : CPUARMState) (ri : ARMCPRegInfo) (isread : Bool) : CPAccessResult × CPUARMState :=
  match ri.accessfn with
  | none => (CPAccessResult.CP_ACCESS_OK, env)
  | some AccessFn.access_gxf => access_gxf env ri isread
  | some AccessFn.access_tvm_trvm => (access_tvm_trvm env ri isread, env)

/-- Modelled from the spec: a register read as the framework performs it
(sections 2, 4.4, 7): access check first, nothing done on a trap; then the
entry's `readfn`, or the raw field read when the entry has none. The
privilege level demanded by `.access` is not looked at: every access here is
made at EL1, which `PL1_RW` admits. -/
def cp_read (access_tvm_trvm : CPUARMState → ARMCPRegInfo → Bool → CPAccessResult)
    (env : CPUARMState) (ri : ARMCPRegInfo) : CPOutcome (Nat × CPUARMState) :=
  match cp_access_check access_tvm_trvm env ri true with
  | (CPAccessResult.CP_ACCESS_TRAP, env1) => CPOutcome.trap env1
  | (CPAccessResult.CP_ACCESS_OK, env1) =>
    let r :=
      match ri.readfn with
      | some fn => call_readfn fn env1 ri
      | none => raw_read env1 ri
    match r with
    | some res => CPOutcome.done res
    | none => CPOutcome.abort

/-- Modelled from the spec: a register write as the framework performs it
(sections 2, 4.4, 7): access check first, nothing done on a trap; then the
entry's `writefn`, or the raw field write when the entry has none. The
privilege level demanded by `.access` is not looked at. -/
def cp_write (VMSA_LOCK_VBAR_EL1 : Nat)
    (access_tvm_trvm : CPUARMState → ARMCPRegInfo → Bool → CPAccessResult)
    (env : CPUARMState) (ri : ARMCPRegInfo) (value : Nat) : CPOutcome CPUARMState :=
  match cp_access_check access_tvm_trvm env ri false with
  | (CPAccessResult.CP_ACCESS_TRAP, env1) => CPOutcome.trap env1
  | (CPAccessResult.CP_ACCESS_OK, env1) =>
    let r :=
      match ri.writefn with
      | some fn => call_writefn VMSA_LOCK_VBAR_EL1 fn env1 ri value
      | none => raw_write env1 ri value
    match r with
    | some env2 => CPOutcome.done env2
    | none => CPOutcome.abort

/-! ## Vocabulary of the properties -/

/-- The seven dual-view registers. -/
inductive DualReg where
  | sp
  | tpidr
  | vbar
  | spsr
  | elr
  | esr
  | far
  deriving DecidableEq

/-- Read handler of a dual-view register. -/
def DualReg.readfn : DualReg → ReadFn
  | .sp => ReadFn.sp_el1_read
  | .tpidr => ReadFn.tpidr_el1_read
  | .vbar => ReadFn.vbar_el1_read
  | .spsr => ReadFn.spsr_el1_read
  | .elr => ReadFn.elr_el1_read
  | .esr => ReadFn.esr_el1_read
  | .far => ReadFn.far_el1_read

/-- Write handler of a dual-view register. -/
def DualReg.writefn : DualReg → WriteFn
  | .sp => WriteFn.sp_el1_write
  | .tpidr => WriteFn.tpidr_el1_write
  | .vbar => WriteFn.vbar_el1_write
  | .spsr => WriteFn.spsr_el1_write
  | .elr => WriteFn.elr_el1_write
  | .esr => WriteFn.esr_el1_write
  | .far => WriteFn.far_el1_write

/-- Dual-view read of a register: its read handler. -/
def dual_read (r : DualReg) (env : CPUARMState) (ri : ARMCPRegInfo) :
    Option (Nat × CPUARMState) :=
  call_readfn r.readfn env ri

/-- Dual-view write of a register: its write handler. -/
def dual_write (VMSA_LOCK_VBAR_EL1 : Nat) (r : DualReg) (env : CPUARMState)
    (ri : ARMCPRegInfo) (value : Nat) : Option CPUARMState :=
  call_writefn VMSA_LOCK_VBAR_EL1 r.writefn env ri value

/-- Shadow-bank slot of a register. -/
def shadow_slot (r : DualReg) (env : CPUARMState) : Nat :=
  match r with
  | .sp => env.gxf.sp_gl1
  | .tpidr => env.gxf.tpidr_gl1
  | .vbar => env.gxf.vbar_gl1
  | .spsr => env.gxf.spsr_gl1
  | .elr => env.gxf.elr_gl1
  | .esr => env.gxf.esr_gl1
  | .far => env.gxf.far_gl1

/-- Normal-bank slot of a register. -/
def normal_slot (r : DualReg) (env : CPUARMState) : Nat :=
  match r with
  | .sp => env.sp_el1
  | .tpidr => env.cp15.tpidr_el1
  | .vbar => env.cp15.vbar_el1
  | .spsr => env.banked_spsr_svc
  | .elr => env.elr_el1
  | .esr => env.cp15.esr_el1
  | .far => env.cp15.far_el1

/-- Slot of a register in the bank a mode selects (`true`: shadow bank). -/
def bank_slot (guarded : Bool) (r : DualReg) (env : CPUARMState) : Nat :=
  if guarded then shadow_slot r env else normal_slot r env

/-- The context with the mode flag set to the given value and nothing else
changed: what the mode switch outside this file does to the fields here. -/
def set_guarded (env : CPUARMState) (g : Bool) : CPUARMState :=
  { env with gxf := { env.gxf with guarded := g } }

/-- The context with the lock register set to the given value and nothing
else changed: what a write of the lock register outside this file does. -/
def set_vmsa_lock (env : CPUARMState) (lock : Nat) : CPUARMState :=
  { env with cp15 := { env.cp15 with vmsa_lock_el1 := lock } }

/-- The VBAR bit of the lock register is set. -/
def vbar_locked (VMSA_LOCK_VBAR_EL1 : Nat) (env : CPUARMState) : Prop :=
  env.cp15.vmsa_lock_el1 &&& VMSA_LOCK_VBAR_EL1 ≠ 0

instance (m : Nat) (env : CPUARMState) : Decidable (vbar_locked m env) := by
  unfold vbar_locked; infer_instance

/-- The description designates the normal-bank vector base as a 64-bit field,
as the AArch64 description of the `VBAR` entry does. -/
def vbar_descriptor (ri : ARMCPRegInfo) : Prop :=
  ri.fieldoffset = some FieldOffset.vbar_ns ∧ cpreg_field_is_64bit ri = true

instance (ri : ARMCPRegInfo) : Decidable (vbar_descriptor ri) := by
  unfold vbar_descriptor; infer_instance

/-- Both vector bases have their low 5 bits zero. -/
def vbar_aligned (env : CPUARMState) : Prop :=
  env.cp15.vbar_el1 % 32 = 0 ∧ env.gxf.vbar_gl1 % 32 = 0

instance (env : CPUARMState) : Decidable (vbar_aligned env) := by
  unfold vbar_aligned; infer_instance

/-- The context with one slot of one bank replaced (`true`: shadow bank). -/
def set_bank_slot (guarded : Bool) (r : DualReg) (x : Nat) (env : CPUARMState) : CPUARMState :=
  match guarded, r with
  | true, .sp => { env with gxf := { env.gxf with sp_gl1 := x } }
  | true, .tpidr => { env with gxf := { env.gxf with tpidr_gl1 := x } }
  | true, .vbar => { env with gxf := { env.gxf with vbar_gl1 := x } }
  | true, .spsr => { env with gxf := { env.gxf with spsr_gl1 := x } }
  | true, .elr => { env with gxf := { env.gxf with elr_gl1 := x } }
  | true, .esr => { env with gxf := { env.gxf with esr_gl1 := x } }
  | true, .far => { env with gxf := { env.gxf with far_gl1 := x } }
  | false, .sp => { env with sp_el1 := x }
  | false, .tpidr => { env with cp15 := { env.cp15 with tpidr_el1 := x } }
  | false, .vbar => { env with cp15 := { env.cp15 with vbar_el1 := x } }
  | false, .spsr => { env with banked_spsr_svc := x }
  | false, .elr => { env with elr_el1 := x }
  | false, .esr => { env with cp15 := { env.cp15 with esr_el1 := x } }
  | false, .far => { env with cp15 := { env.cp15 with far_el1 := x } }

/-- The value a dual-view write of `v` puts into the slot: `v & ~0x1F` for the
vector base, `v` for the other registers. -/
def stored_value (r : DualReg) (v : Nat) : Nat :=
  if r = DualReg.vbar then v &&& 0xFFFFFFFFFFFFFFE0 else v

/-- The write is a normal-mode vector base write made while the lock is set. -/
def lock_drops (VMSA_LOCK_VBAR_EL1 : Nat) (r : DualReg) (env : CPUARMState) : Prop :=
  r = DualReg.vbar ∧ env.gxf.guarded = false ∧ vbar_locked VMSA_LOCK_VBAR_EL1 env

instance (m : Nat) (r : DualReg) (env : CPUARMState) : Decidable (lock_drops m r env) := by
  unfold lock_drops; infer_instance

/-- The registered description with the given name, if there is one. -/
def find_reginfo (name : String) : Option ARMCPRegInfo :=
  t8030cpu_init_gxf.find? (fun r => r.name == name)

/-- Names of the alias registers. -/
def alias_names : List String :=
  ["TPIDR_GL11", "VBAR_GL11", "SPSR_GL11", "ESR_GL11", "ELR_GL11", "FAR_GL11"]

/-- Name `X_GL11` of the alias of a dual-view register `X`; the table has no
such name for the stack pointer. -/
def alias_name : DualReg → Option String
  | .sp => none
  | .tpidr => some "TPIDR_GL11"
  | .vbar => some "VBAR_GL11"
  | .spsr => some "SPSR_GL11"
  | .elr => some "ELR_GL11"
  | .esr => some "ESR_GL11"
  | .far => some "FAR_GL11"

/-- The registered alias entry `X_GL11` of a dual-view register `X`. -/
def alias_entry (r : DualReg) : Option ARMCPRegInfo :=
  (alias_name r).bind find_reginfo

/-- The context with the entry vector replaced. -/
def set_entry_vector (x : Nat) (env : CPUARMState) : CPUARMState :=
  { env with gxf := { env.gxf with gxf_enter_el1 := x } }

/-- The registered entry whose `readfn` and `writefn` are the two handlers of
a dual-view register, if the table has one. -/
def dual_entry (r : DualReg) : Option ARMCPRegInfo :=
  t8030cpu_init_gxf.find? (fun e => e.readfn == some r.readfn && e.writefn == some r.writefn)

/-- The seven dual-view registers, listed. -/
def all_dual_regs : List DualReg :=
  [DualReg.sp, DualReg.tpidr, DualReg.vbar, DualReg.spsr, DualReg.elr, DualReg.esr, DualReg.far]

/-- Encoding coordinates of an entry: `(opc0, opc1, crn, crm, opc2)`. -/
def coordinates (ri : ARMCPRegInfo) : Nat × Nat × Nat × Nat × Nat :=
  (ri.opc0, ri.opc1, ri.crn, ri.crm, ri.opc2)

/-- One access: a call of a dual-view handler, an access to a registered
entry made through the table, or a call of the access controller. -/
inductive Access where
  | handler_read (r : DualReg) (ri : ARMCPRegInfo)
  | handler_write (r : DualReg) (ri : ARMCPRegInfo) (value : Nat)
  | reg_read (ri : ARMCPRegInfo)
  | reg_write (ri : ARMCPRegInfo) (value : Nat)
  | check (ri : ARMCPRegInfo) (isread : Bool)

/-- The access is one this file offers: a handler call (the vector base
handlers with the description of the registered `VBAR` entry), an access to
an entry that `t8030cpu_init_gxf` registers, or an access check. -/
def Access.offered : Access → Prop
  | .handler_read r ri => r = DualReg.vbar → vbar_descriptor ri
  | .handler_write r ri _ => r = DualReg.vbar → vbar_descriptor ri
  | .reg_read ri => ri ∈ t8030cpu_init_gxf
  | .reg_write ri _ => ri ∈ t8030cpu_init_gxf
  | .check _ _ => True

/-- The access does not go through `access_tvm_trvm`, the check this file
only declares. -/
def Access.local_check : Access → Prop
  | .reg_read ri => ri.accessfn ≠ some AccessFn.access_tvm_trvm
  | .reg_write ri _ => ri.accessfn ≠ some AccessFn.access_tvm_trvm
  | _ => True

/-- What the guest sees of an access: permitted or trapped, and the value
read if one was read. -/
structure Observed where
  result : CPAccessResult
  value : Option Nat
  deriving DecidableEq

/-- Carry out one access: what the guest sees and the context left behind;
`none` when an assertion fails. -/
def perform (VMSA_LOCK_VBAR_EL1 : Nat)
    (access_tvm_trvm : CPUARMState → ARMCPRegInfo → Bool → CPAccessResult)
    (a : Access) (env : CPUARMState) : Option (Observed × CPUARMState) :=
  match a with
  | .handler_read r ri =>
    match dual_read r env ri with
    | some (value, env1) => some (⟨CPAccessResult.CP_ACCESS_OK, some value⟩, env1)
    | none => none
  | .handler_write r ri value =>
    match dual_write VMSA_LOCK_VBAR_EL1 r env ri value with
    | some env1 => some (⟨CPAccessResult.CP_ACCESS_OK, none⟩, env1)
    | none => none
  | .reg_read ri =>
    match cp_read access_tvm_trvm env ri with
    | CPOutcome.trap env1 => some (⟨CPAccessResult.CP_ACCESS_TRAP, none⟩, env1)
    | CPOutcome.done (value, env1) => some (⟨CPAccessResult.CP_ACCESS_OK, some value⟩, env1)
    | CPOutcome.abort => none
  | .reg_write ri value =>
    match cp_write VMSA_LOCK_VBAR_EL1 access_tvm_trvm env ri value with
    | CPOutcome.trap env1 => some (⟨CPAccessResult.CP_ACCESS_TRAP, none⟩, env1)
    | CPOutcome.done env1 => some (⟨CPAccessResult.CP_ACCESS_OK, none⟩, env1)
    | CPOutcome.abort => none
  | .check ri isread =>
    some (⟨(access_gxf env ri isread).1, none⟩, (access_gxf env ri isread).2)

/-- Carry out a finite sequence of accesses, one after the other. -/
def perform_all (VMSA_LOCK_VBAR_EL1 : Nat)
    (access_tvm_trvm : CPUARMState → ARMCPRegInfo → Bool → CPAccessResult) :
    List Access → CPUARMState → Option CPUARMState
  | [], env => some env
  | a :: rest, env =>
    match perform VMSA_LOCK_VBAR_EL1 access_tvm_trvm a env with
    | some (_, env1) => perform_all VMSA_LOCK_VBAR_EL1 access_tvm_trvm rest env1
    | none => none

/-- Two contexts agree on everything but the seven shadow slots: the seven
normal-bank slots, the lock register, the entry vector, the mode flag (and
the secure vector base). -/
def agree_outside_shadow (e1 e2 : CPUARMState) : Prop :=
  (∀ r, normal_slot r e1 = normal_slot r e2) ∧
  e1.cp15.vmsa_lock_el1 = e2.cp15.vmsa_lock_el1 ∧
  e1.gxf.gxf_enter_el1 = e2.gxf.gxf_enter_el1 ∧
  e1.gxf.guarded = e2.gxf.guarded ∧
  e1.cp15.vbar_s = e2.cp15.vbar_s

/-- The second context is the first one, or the first one with one bank slot
replaced (a normal-bank slot if the first context is in normal mode), or the
first one with the entry vector replaced. -/
def one_slot_apart (env env1 : CPUARMState) : Prop :=
  env1 = env ∨
  (∃ (g : Bool) (r : DualReg) (x : Nat), env1 = set_bank_slot g r x env ∧
    (env.gxf.guarded = false → g = false)) ∨
  (∃ x : Nat, env1 = set_entry_vector x env)

/-- A context used in the examples: normal mode, unlocked, distinct values in
all slots, both vector bases aligned. -/
def env_example : CPUARMState :=
  { sp_el1 := 0x1000, elr_el1 := 0x2000, banked_spsr_svc := 0x3c5,
    cp15 := { tpidr_el1 := 0x4000, vbar_el1 := 0x5000, vbar_s := 0,
              esr_el1 := 0x96000004, far_el1 := 0x7000, vmsa_lock_el1 := 0 },
    gxf := { guarded := false, gxf_enter_el1 := 0x8000, sp_gl1 := 0x9000,
             tpidr_gl1 := 0xa000, vbar_gl1 := 0xb000, spsr_gl1 := 0x3c4,
             elr_gl1 := 0xc000, esr_gl1 := 0x5e000000, far_gl1 := 0xd000 } }

/-- The dual-view register whose normal-bank slot lies at a field offset, if
there is one: the handlers' normal-mode branches name these fields. -/
def normal_slot_at (off : FieldOffset) : Option DualReg :=
  match off with
  | .vbar_s => none
  | .vbar_ns => some DualReg.vbar
  | .gxf_enter_el1 => none
  | .tpidr_el1 => some DualReg.tpidr
  | .vbar_el1 => some DualReg.vbar
  | .banked_spsr_svc => some DualReg.spsr
  | .esr_el1 => some DualReg.esr
  | .elr_el1 => some DualReg.elr
  | .far_el1 => some DualReg.far

/-- The alias entries of the table: the registered entries gated by
`access_gxf`. -/
def alias_entries : List ARMCPRegInfo :=
  t8030cpu_init_gxf.filter (fun e => e.accessfn == some AccessFn.access_gxf)

/-- The dual-view entries of the table: the registered entries that name a
read handler. -/
def dual_entries : List ARMCPRegInfo :=
  t8030cpu_init_gxf.filter (fun e => e.readfn.isSome)

/-- The dual-view registers the alias entries reach: for each alias entry,
the register whose normal-bank slot its `fieldoffset` designates. -/
def aliased_regs : List DualReg :=
  alias_entries.filterMap (fun e => e.fieldoffset.bind normal_slot_at)

/-- The example context with other values in the seven shadow slots. -/
def env_example_shadow : CPUARMState :=
  { env_example with
    gxf := { guarded := false, gxf_enter_el1 := 0x8000, sp_gl1 := 0x19000,
             tpidr_gl1 := 0x1a000, vbar_gl1 := 0x1b000, spsr_gl1 := 0x3c9,
             elr_gl1 := 0x1c000, esr_gl1 := 0x5e000001, far_gl1 := 0x1d000 } }

/-- An access function `access_tvm_trvm` that always permits, for examples. -/
def tvm_permit (_env : CPUARMState) (_ri : ARMCPRegInfo) (_isread : Bool) : CPAccessResult :=
  CPAccessResult.CP_ACCESS_OK

/-! ## Properties -/

/-! ### Arithmetic of `value & ~0x1FULL` -/

theorem testBit_not_0x1f (i : Nat) :
    (0xFFFFFFFFFFFFFFE0 : Nat).testBit i = (decide (5 ≤ i) && decide (i < 64)) := by
  have h : (0xFFFFFFFFFFFFFFE0 : Nat) = (2 ^ 59 - 1) <<< 5 := by decide
  rw [h, Nat.testBit_shiftLeft, Nat.testBit_two_pow_sub_one]
  by_cases h5 : 5 ≤ i <;> by_cases h64 : i < 64 <;> simp [h5, h64] <;> omega

theorem and_not_0x1f_mod (v : Nat) : (v &&& 0xFFFFFFFFFFFFFFE0) % 32 = 0 := by
  have h : (32 : Nat) = 2 ^ 5 := by norm_num
  rw [h, ← Nat.and_pow_two_sub_one_eq_mod, Nat.and_assoc]
  have h0 : (0xFFFFFFFFFFFFFFE0 : Nat) &&& (2 ^ 5 - 1) = 0 := by decide
  rw [h0, Nat.and_zero]

theorem and_not_0x1f_eq (v : Nat) (hv : v < 2 ^ 64) :
    v &&& 0xFFFFFFFFFFFFFFE0 = v - v % 32 := by
  have h1 : v - v % 32 = (v >>> 5) <<< 5 := by
    rw [Nat.shiftLeft_eq, Nat.shiftRight_eq_div_pow]
    omega
  rw [h1]
  apply Nat.eq_of_testBit_eq
  intro i
  rw [Nat.testBit_and, testBit_not_0x1f, Nat.testBit_shiftLeft, Nat.testBit_shiftRight]
  by_cases h5 : 5 ≤ i
  · have e : 5 + (i - 5) = i := by omega
    by_cases h64 : i < 64
    · simp [h5, h64, e]
    · have hbit : v.testBit i = false := by
        apply Nat.testBit_lt_two_pow
        calc v < 2 ^ 64 := hv
          _ ≤ 2 ^ i := Nat.pow_le_pow_right (by norm_num) (by omega)
      simp [h5, h64, e, hbit]
  · simp [h5]

/-! ### What a dual-view write does -/

theorem dual_write_eq (m : Nat) (r : DualReg) (env : CPUARMState) (ri : ARMCPRegInfo)
    (v : Nat) (hri : r = DualReg.vbar → vbar_descriptor ri) :
    dual_write m r env ri v =
      some (if lock_drops m r env then env
            else set_bank_slot env.gxf.guarded r (stored_value r v) env) := by
  obtain ⟨sp, elr, spsr, cp15, ⟨g, enter, a1, a2, a3, a4, a5, a6, a7⟩⟩ := env
  cases r <;> cases g <;>
    simp [dual_write, DualReg.writefn, call_writefn, sp_el1_write, tpidr_el1_write,
      vbar_el1_write, spsr_el1_write, elr_el1_write, esr_el1_write, far_el1_write,
      lock_drops, set_bank_slot, stored_value]
  obtain ⟨hoff, h64⟩ := hri rfl
  by_cases hl : vbar_locked m ⟨sp, elr, spsr, cp15, ⟨false, enter, a1, a2, a3, a4, a5, a6, a7⟩⟩
  · have hl2 := hl
    simp only [vbar_locked] at hl2
    simp [hl, hl2]
  · have hl2 := hl
    simp only [vbar_locked, ne_eq, not_not] at hl2
    simp [hl, hl2, raw_write, hoff, h64, CPREG_FIELD64_set]

theorem bank_slot_set_same (g : Bool) (r : DualReg) (x : Nat) (env : CPUARMState) :
    bank_slot g r (set_bank_slot g r x env) = x := by
  cases g <;> cases r <;> rfl

theorem bank_slot_set_other (g b : Bool) (r q : DualReg) (x : Nat) (env : CPUARMState)
    (h : (b, q) ≠ (g, r)) :
    bank_slot b q (set_bank_slot g r x env) = bank_slot b q env := by
  cases g <;> cases b <;> cases r <;> cases q <;> first | rfl | exact absurd rfl h

theorem set_bank_slot_rest (g : Bool) (r : DualReg) (x : Nat) (env : CPUARMState) :
    (set_bank_slot g r x env).gxf.guarded = env.gxf.guarded ∧
    (set_bank_slot g r x env).gxf.gxf_enter_el1 = env.gxf.gxf_enter_el1 ∧
    (set_bank_slot g r x env).cp15.vmsa_lock_el1 = env.cp15.vmsa_lock_el1 ∧
    (set_bank_slot g r x env).cp15.vbar_s = env.cp15.vbar_s := by
  cases g <;> cases r <;> exact ⟨rfl, rfl, rfl, rfl⟩

/-! ### Accesses through the alias entries and the entry vector -/

theorem alias_entry_eq (r : DualReg) :
    alias_entry r =
      match r with
      | .sp => none
      | .tpidr => some reginfo_TPIDR_GL11
      | .vbar => some reginfo_VBAR_GL11
      | .spsr => some reginfo_SPSR_GL11
      | .elr => some reginfo_ELR_GL11
      | .esr => some reginfo_ESR_GL11
      | .far => some reginfo_FAR_GL11 := by
  cases r <;> decide

theorem alias_write_eq (m : Nat)
    (tvm : CPUARMState → ARMCPRegInfo → Bool → CPAccessResult) (env : CPUARMState)
    (r : DualReg) (ri : ARMCPRegInfo) (v : Nat) (h : alias_entry r = some ri) :
    cp_write m tvm env ri v =
      if env.gxf.guarded = true then CPOutcome.done (set_bank_slot false r v env)
      else CPOutcome.trap env := by
  rw [alias_entry_eq] at h
  obtain ⟨sp, elr, spsr, cp15, ⟨g, enter, a1, a2, a3, a4, a5, a6, a7⟩⟩ := env
  cases r <;> simp at h <;> subst h <;> cases g <;> rfl

theorem alias_read_eq (tvm : CPUARMState → ARMCPRegInfo → Bool → CPAccessResult)
    (env : CPUARMState) (r : DualReg) (ri : ARMCPRegInfo) (h : alias_entry r = some ri) :
    cp_read tvm env ri =
      if env.gxf.guarded = true then CPOutcome.done (normal_slot r env, env)
      else CPOutcome.trap env := by
  rw [alias_entry_eq] at h
  obtain ⟨sp, elr, spsr, cp15, ⟨g, enter, a1, a2, a3, a4, a5, a6, a7⟩⟩ := env
  cases r <;> simp at h <;> subst h <;> cases g <;> rfl

theorem entry_vector_write_eq (m : Nat)
    (tvm : CPUARMState → ARMCPRegInfo → Bool → CPAccessResult) (env : CPUARMState) (v : Nat) :
    cp_write m tvm env (aa64_view reginfo_GXF_ENTER_EL1) v =
      CPOutcome.done (set_entry_vector v env) := by
  rfl

theorem entry_vector_read_eq (tvm : CPUARMState → ARMCPRegInfo → Bool → CPAccessResult)
    (env : CPUARMState) :
    cp_read tvm env (aa64_view reginfo_GXF_ENTER_EL1) =
      CPOutcome.done (env.gxf.gxf_enter_el1, env) := by
  rfl

theorem alias_of_name (ri : ARMCPRegInfo) (hmem : ri ∈ t8030cpu_init_gxf)
    (hname : ri.name ∈ alias_names) : ∃ r, alias_entry r = some ri := by
  simp only [t8030cpu_init_gxf, define_arm_cp_regs, t8030gxf_cp_reginfo, List.map_cons,
    List.map_nil, List.mem_cons, List.mem_nil_iff, or_false] at hmem
  rcases hmem with rfl | rfl | rfl | rfl | rfl | rfl | rfl | rfl | rfl | rfl | rfl | rfl | rfl
  all_goals first
    | exact absurd hname (by decide)
    | exact ⟨DualReg.tpidr, by decide⟩
    | exact ⟨DualReg.vbar, by decide⟩
    | exact ⟨DualReg.spsr, by decide⟩
    | exact ⟨DualReg.esr, by decide⟩
    | exact ⟨DualReg.elr, by decide⟩
    | exact ⟨DualReg.far, by decide⟩

theorem vbar_aligned_set_bank_slot (g : Bool) (r : DualReg) (x : Nat) (env : CPUARMState)
    (hal : vbar_aligned env) (hx : r = DualReg.vbar → x % 32 = 0) :
    vbar_aligned (set_bank_slot g r x env) := by
  obtain ⟨h1, h2⟩ := hal
  cases g <;> cases r <;>
    first
      | exact ⟨h1, h2⟩
      | exact ⟨hx rfl, h2⟩
      | exact ⟨h1, hx rfl⟩

theorem normal_vbar_set_bank_slot (g : Bool) (r : DualReg) (x : Nat) (env : CPUARMState)
    (h : ¬ (g = false ∧ r = DualReg.vbar)) :
    (set_bank_slot g r x env).cp15.vbar_el1 = env.cp15.vbar_el1 := by
  cases g <;> cases r <;> first | rfl | exact absurd ⟨rfl, rfl⟩ h

theorem vbar_descriptor_VBAR : vbar_descriptor (aa64_view reginfo_VBAR) := by
  decide

theorem dual_read_eq (r : DualReg) (env : CPUARMState) (ri : ARMCPRegInfo)
    (hri : r = DualReg.vbar → vbar_descriptor ri) :
    dual_read r env ri =
      some (if env.gxf.guarded = true then shadow_slot r env else normal_slot r env, env) := by
  cases r <;>
    simp only [dual_read, DualReg.readfn, call_readfn, sp_el1_read, tpidr_el1_read,
      vbar_el1_read, spsr_el1_read, elr_el1_read, esr_el1_read, far_el1_read,
      shadow_slot, normal_slot] <;>
    split <;> try rfl
  obtain ⟨hoff, h64⟩ := hri rfl
  simp [raw_read, hoff, h64, CPREG_FIELD64]

/-- C1. For each of the seven dual-view registers and every context, the read
handler returns the shadow-bank slot of the register when the mode flag is
guarded and the normal-bank slot otherwise, and hands back the context
unchanged. For the vector base the description is the one of the registered
`VBAR` entry (it designates the normal-bank slot as a 64-bit field); the other
handlers do not look at the description. -/
theorem dual_read_selects_bank (r : DualReg) (env : CPUARMState) (ri : ARMCPRegInfo)
    (hri : r = DualReg.vbar → vbar_descriptor ri) :
    dual_read r env ri =
      some (if env.gxf.guarded = true then shadow_slot r env else normal_slot r env, env) :=
  dual_read_eq r env ri hri

theorem dual_read_selects_bank_witness :
    (DualReg.vbar = DualReg.vbar → vbar_descriptor (aa64_view reginfo_VBAR)) ∧
    dual_read DualReg.vbar env_example (aa64_view reginfo_VBAR) =
      some (if env_example.gxf.guarded = true then shadow_slot DualReg.vbar env_example
            else normal_slot DualReg.vbar env_example, env_example) :=
  ⟨fun _ => vbar_descriptor_VBAR,
   dual_read_selects_bank DualReg.vbar env_example (aa64_view reginfo_VBAR)
     (fun _ => vbar_descriptor_VBAR)⟩

/-- C2. For every context, every 64-bit value `v` and each dual-view register:
unless the write is a normal-mode vector base write made while the lock is
set, the write handler succeeds, leaves the mode flag as it was, and the read
handler of the same register, run on the resulting context (hence in the same
mode), returns `v` for sp, tpidr, spsr, elr, esr and far, and `v` with its low
5 bits cleared (`v - v % 32`) for vbar. -/
theorem dual_write_read_roundtrip (m : Nat) (r : DualReg) (env : CPUARMState)
    (ri : ARMCPRegInfo) (v : Nat) (hv : v < 2 ^ 64)
    (hri : r = DualReg.vbar → vbar_descriptor ri) (hlock : ¬ lock_drops m r env) :
    ∃ env1, dual_write m r env ri v = some env1 ∧
      env1.gxf.guarded = env.gxf.guarded ∧
      dual_read r env1 ri = some (if r = DualReg.vbar then v - v % 32 else v, env1) := by
  refine ⟨set_bank_slot env.gxf.guarded r (stored_value r v) env, ?_, ?_, ?_⟩
  · rw [dual_write_eq m r env ri v hri, if_neg hlock]
  · exact (set_bank_slot_rest _ _ _ _).1
  · rw [dual_read_eq r _ ri hri, (set_bank_slot_rest _ _ _ _).1]
    have h := bank_slot_set_same env.gxf.guarded r (stored_value r v) env
    simp only [bank_slot] at h
    rw [h]
    by_cases hr : r = DualReg.vbar
    · simp [stored_value, hr, and_not_0x1f_eq v hv]
    · simp [stored_value, hr]

theorem dual_write_read_roundtrip_witness :
    (0x8000000000000021 < 2 ^ 64) ∧
    (DualReg.vbar = DualReg.vbar → vbar_descriptor (aa64_view reginfo_VBAR)) ∧
    (¬ lock_drops 1 DualReg.vbar env_example) ∧
    ∃ env1, dual_write 1 DualReg.vbar env_example (aa64_view reginfo_VBAR)
        0x8000000000000021 = some env1 ∧
      env1.gxf.guarded = env_example.gxf.guarded ∧
      dual_read DualReg.vbar env1 (aa64_view reginfo_VBAR) =
        some (if DualReg.vbar = DualReg.vbar
              then 0x8000000000000021 - 0x8000000000000021 % 32
              else 0x8000000000000021, env1) :=
  ⟨by decide, fun _ => vbar_descriptor_VBAR, by decide,
   dual_write_read_roundtrip 1 DualReg.vbar env_example (aa64_view reginfo_VBAR)
     0x8000000000000021 (by decide) (fun _ => vbar_descriptor_VBAR) (by decide)⟩

/-- C3. Frame and bank isolation: for every context, dual-view register and
value, the write handler succeeds and changes at most the slot of that
register in the bank the mode flag selects: every other slot of either bank,
the entry vector, the mode flag, the lock register (and the secure vector
base) are as before. Hence a read handler of any register run in the other
mode returns after the write what it returned before it. -/
theorem dual_write_frame (m : Nat) (r : DualReg) (env : CPUARMState) (ri : ARMCPRegInfo)
    (v : Nat) (hri : r = DualReg.vbar → vbar_descriptor ri) :
    ∃ env1, dual_write m r env ri v = some env1 ∧
      (∀ (b : Bool) (q : DualReg), (b, q) ≠ (env.gxf.guarded, r) →
        bank_slot b q env1 = bank_slot b q env) ∧
      env1.gxf.gxf_enter_el1 = env.gxf.gxf_enter_el1 ∧
      env1.gxf.guarded = env.gxf.guarded ∧
      env1.cp15.vmsa_lock_el1 = env.cp15.vmsa_lock_el1 ∧
      env1.cp15.vbar_s = env.cp15.vbar_s ∧
      (∀ (q : DualReg) (rq : ARMCPRegInfo), (q = DualReg.vbar → vbar_descriptor rq) →
        (dual_read q (set_guarded env1 (!env.gxf.guarded)) rq).map Prod.fst =
          (dual_read q (set_guarded env (!env.gxf.guarded)) rq).map Prod.fst) := by
  rw [dual_write_eq m r env ri v hri]
  by_cases hd : lock_drops m r env
  · rw [if_pos hd]
    exact ⟨env, rfl, fun _ _ _ => rfl, rfl, rfl, rfl, rfl, fun _ _ _ => rfl⟩
  · rw [if_neg hd]
    obtain ⟨h1, h2, h3, h4⟩ := set_bank_slot_rest env.gxf.guarded r (stored_value r v) env
    refine ⟨_, rfl, fun b q hne => bank_slot_set_other _ _ _ _ _ _ hne, h2, h1, h3, h4, ?_⟩
    intro q rq hrq
    rw [dual_read_eq q _ rq hrq, dual_read_eq q _ rq hrq]
    have hne : ((!env.gxf.guarded), q) ≠ (env.gxf.guarded, r) := by
      intro h
      have h0 := congrArg Prod.fst h
      revert h0
      cases env.gxf.guarded <;> simp
    have hs := bank_slot_set_other env.gxf.guarded (!env.gxf.guarded) r q (stored_value r v) env hne
    obtain ⟨sp, elr, spsr, cp15, ⟨g, enter, a1, a2, a3, a4, a5, a6, a7⟩⟩ := env
    cases g <;> cases r <;> cases q <;>
      simp_all [set_guarded, set_bank_slot, bank_slot, shadow_slot, normal_slot]

theorem dual_write_frame_witness :
    (DualReg.vbar = DualReg.vbar → vbar_descriptor (aa64_view reginfo_VBAR)) ∧
    ∃ env1, dual_write 1 DualReg.vbar env_example (aa64_view reginfo_VBAR) 0x4100000000000000
        = some env1 ∧
      (∀ (b : Bool) (q : DualReg), (b, q) ≠ (env_example.gxf.guarded, DualReg.vbar) →
        bank_slot b q env1 = bank_slot b q env_example) ∧
      env1.gxf.gxf_enter_el1 = env_example.gxf.gxf_enter_el1 ∧
      env1.gxf.guarded = env_example.gxf.guarded ∧
      env1.cp15.vmsa_lock_el1 = env_example.cp15.vmsa_lock_el1 ∧
      env1.cp15.vbar_s = env_example.cp15.vbar_s ∧
      (∀ (q : DualReg) (rq : ARMCPRegInfo), (q = DualReg.vbar → vbar_descriptor rq) →
        (dual_read q (set_guarded env1 (!env_example.gxf.guarded)) rq).map Prod.fst =
          (dual_read q (set_guarded env_example (!env_example.gxf.guarded)) rq).map Prod.fst) :=
  ⟨fun _ => vbar_descriptor_VBAR,
   dual_write_frame 1 DualReg.vbar env_example (aa64_view reginfo_VBAR) 0x4100000000000000
     (fun _ => vbar_descriptor_VBAR)⟩

/-- C4. For every context and every 64-bit value `v`, a vector base write
that is not dropped by the lock succeeds and leaves in the vbar slot of the
bank the mode flag selects the value `v & ~0x1F`: its low 5 bits are zero and
its other bits are those of `v`; the vbar slot of the other bank is untouched.
This holds in guarded and in normal mode alike. Example: in any guarded
context a write of `0x8000000000000021` is read back as `0x8000000000000020`
and the normal-bank vbar is as before. -/
theorem vbar_write_masks (m : Nat) (env : CPUARMState) (ri : ARMCPRegInfo) (v : Nat)
    (hv : v < 2 ^ 64) (hri : vbar_descriptor ri)
    (hlock : ¬ lock_drops m DualReg.vbar env) :
    (∃ env1, vbar_el1_write m env ri v = some env1 ∧
      bank_slot env.gxf.guarded DualReg.vbar env1 = v &&& 0xFFFFFFFFFFFFFFE0 ∧
      bank_slot env.gxf.guarded DualReg.vbar env1 % 32 = 0 ∧
      bank_slot env.gxf.guarded DualReg.vbar env1 / 32 = v / 32 ∧
      bank_slot (!env.gxf.guarded) DualReg.vbar env1 =
        bank_slot (!env.gxf.guarded) DualReg.vbar env) ∧
    (env.gxf.guarded = true →
      ∃ env1, vbar_el1_write m env ri 0x8000000000000021 = some env1 ∧
        vbar_el1_read env1 ri = some (0x8000000000000020, env1) ∧
        env1.cp15.vbar_el1 = env.cp15.vbar_el1) := by
  have hw := dual_write_eq m DualReg.vbar env ri
  simp only [dual_write, DualReg.writefn, call_writefn] at hw
  constructor
  · refine ⟨_, (hw v (fun _ => hri)).trans (by rw [if_neg hlock]), ?_, ?_, ?_, ?_⟩
    · rw [bank_slot_set_same]; simp [stored_value]
    · rw [bank_slot_set_same]; simp only [stored_value, if_true]
      exact and_not_0x1f_mod v
    · rw [bank_slot_set_same]; simp only [stored_value, if_true]
      rw [and_not_0x1f_eq v hv]
      omega
    · apply bank_slot_set_other
      intro h
      have h0 := congrArg Prod.fst h
      revert h0
      cases env.gxf.guarded <;> simp
  · intro hg
    have hnd : ¬ lock_drops m DualReg.vbar env := by simp [lock_drops, hg]
    refine ⟨_, (hw _ (fun _ => hri)).trans (by rw [if_neg hnd]), ?_, ?_⟩
    · have e : (0x8000000000000021 : Nat) &&& 0xFFFFFFFFFFFFFFE0 = 0x8000000000000020 := by
        decide
      simp [vbar_el1_read, hg, set_bank_slot, stored_value, e]
    · simp [hg, set_bank_slot]

theorem vbar_write_masks_witness :
    (0x4100000000000021 < 2 ^ 64) ∧ vbar_descriptor (aa64_view reginfo_VBAR) ∧
    (¬ lock_drops 1 DualReg.vbar env_example) ∧
    ((∃ env1, vbar_el1_write 1 env_example (aa64_view reginfo_VBAR) 0x4100000000000021
        = some env1 ∧
      bank_slot env_example.gxf.guarded DualReg.vbar env1
        = 0x4100000000000021 &&& 0xFFFFFFFFFFFFFFE0 ∧
      bank_slot env_example.gxf.guarded DualReg.vbar env1 % 32 = 0 ∧
      bank_slot env_example.gxf.guarded DualReg.vbar env1 / 32 = 0x4100000000000021 / 32 ∧
      bank_slot (!env_example.gxf.guarded) DualReg.vbar env1 =
        bank_slot (!env_example.gxf.guarded) DualReg.vbar env_example) ∧
    (env_example.gxf.guarded = true →
      ∃ env1, vbar_el1_write 1 env_example (aa64_view reginfo_VBAR) 0x8000000000000021
          = some env1 ∧
        vbar_el1_read env1 (aa64_view reginfo_VBAR) = some (0x8000000000000020, env1) ∧
        env1.cp15.vbar_el1 = env_example.cp15.vbar_el1)) :=
  ⟨by decide, vbar_descriptor_VBAR, by decide,
   vbar_write_masks 1 env_example (aa64_view reginfo_VBAR) 0x4100000000000021
     (by decide) vbar_descriptor_VBAR (by decide)⟩

/-- C5. In normal mode the vector base write of every 64-bit value leaves the
whole context unchanged, with no fault (the handler returns normally), if and
only if the VBAR bit of the lock register is set; when the bit is clear the
write of `v` is carried out and stores `v & ~0x1F` in the normal-bank vbar. In
guarded mode with the lock set the write still stores the masked value in the
shadow vbar and leaves the normal-bank vbar unchanged. Scenario: normal,
unlocked, write `0x4100000000000000`, read it back, set the lock bit, write
`0x4200000000000000`, the read still returns `0x4100000000000000`. -/
theorem vbar_lock_silent_drop (m : Nat) (env : CPUARMState) (ri : ARMCPRegInfo)
    (hri : vbar_descriptor ri) :
    (env.gxf.guarded = false →
      ((∀ v, v < 2 ^ 64 → vbar_el1_write m env ri v = some env) ↔ vbar_locked m env)) ∧
    (env.gxf.guarded = false → ¬ vbar_locked m env →
      ∀ v, vbar_el1_write m env ri v =
        some (set_bank_slot false DualReg.vbar (v &&& 0xFFFFFFFFFFFFFFE0) env)) ∧
    (env.gxf.guarded = true → vbar_locked m env →
      ∀ v, ∃ env1, vbar_el1_write m env ri v = some env1 ∧
        env1.gxf.vbar_gl1 = v &&& 0xFFFFFFFFFFFFFFE0 ∧
        env1.cp15.vbar_el1 = env.cp15.vbar_el1) ∧
    (env.gxf.guarded = false → ¬ vbar_locked m env →
      ∀ lock, lock &&& m ≠ 0 →
        ∃ env1 env2, vbar_el1_write m env ri 0x4100000000000000 = some env1 ∧
          vbar_el1_read env1 ri = some (0x4100000000000000, env1) ∧
          vbar_locked m (set_vmsa_lock env1 lock) ∧
          vbar_el1_write m (set_vmsa_lock env1 lock) ri 0x4200000000000000 = some env2 ∧
          vbar_el1_read env2 ri = some (0x4100000000000000, env2)) := by
  have hw : ∀ (e : CPUARMState) (v : Nat), vbar_el1_write m e ri v =
      some (if lock_drops m DualReg.vbar e then e
            else set_bank_slot e.gxf.guarded DualReg.vbar (stored_value DualReg.vbar v) e) :=
    fun e v => dual_write_eq m DualReg.vbar e ri v (fun _ => hri)
  have hr : ∀ e : CPUARMState, vbar_el1_read e ri =
      some (if e.gxf.guarded = true then shadow_slot DualReg.vbar e
            else normal_slot DualReg.vbar e, e) :=
    fun e => dual_read_eq DualReg.vbar e ri (fun _ => hri)
  refine ⟨?_, ?_, ?_, ?_⟩
  · intro hg
    constructor
    · intro hall
      by_contra hl
      have hnd : ¬ lock_drops m DualReg.vbar env := fun h => hl h.2.2
      have h0 := hall 0 (by norm_num)
      have h32 := hall 32 (by norm_num)
      rw [hw, if_neg hnd, hg] at h0 h32
      have e0 := congrArg (fun o => o.map (fun e => e.cp15.vbar_el1)) h0
      have e32 := congrArg (fun o => o.map (fun e => e.cp15.vbar_el1)) h32
      simp [set_bank_slot, stored_value] at e0 e32
      have e : (32 : Nat) &&& 0xFFFFFFFFFFFFFFE0 = 32 := by decide
      rw [e] at e32
      omega
    · intro hl v _
      rw [hw, if_pos ⟨rfl, hg, hl⟩]
  · intro hg hl v
    have hnd : ¬ lock_drops m DualReg.vbar env := fun h => hl h.2.2
    rw [hw, if_neg hnd, hg]
    simp [stored_value]
  · intro hg _ v
    have hnd : ¬ lock_drops m DualReg.vbar env := by simp [lock_drops, hg]
    refine ⟨_, (hw env v).trans (by rw [if_neg hnd]), ?_, ?_⟩
    · simp [hg, set_bank_slot, stored_value]
    · simp [hg, set_bank_slot]
  · intro hg hl lock hlock
    have hnd : ¬ lock_drops m DualReg.vbar env := fun h => hl h.2.2
    have key : ∀ a b : Nat, a &&& 0xFFFFFFFFFFFFFFE0 = a →
        ∃ env1 env2, vbar_el1_write m env ri a = some env1 ∧
          vbar_el1_read env1 ri = some (a, env1) ∧
          vbar_locked m (set_vmsa_lock env1 lock) ∧
          vbar_el1_write m (set_vmsa_lock env1 lock) ri b = some env2 ∧
          vbar_el1_read env2 ri = some (a, env2) := by
      intro a b ha
      have hlk : vbar_locked m (set_vmsa_lock
          (set_bank_slot false DualReg.vbar (stored_value DualReg.vbar a) env) lock) := by
        simpa [vbar_locked, set_vmsa_lock] using hlock
      refine ⟨_, set_vmsa_lock
        (set_bank_slot false DualReg.vbar (stored_value DualReg.vbar a) env) lock,
        (hw env _).trans (by rw [if_neg hnd, hg]), ?_, hlk, ?_, ?_⟩
      · rw [hr]
        simp [set_bank_slot, hg, normal_slot, stored_value, ha]
      · rw [hw, if_pos ⟨rfl, by simp [set_vmsa_lock, set_bank_slot, hg], hlk⟩]
      · rw [hr]
        simp [set_vmsa_lock, set_bank_slot, hg, normal_slot, stored_value, ha]
    exact key 0x4100000000000000 0x4200000000000000 (by decide)

theorem vbar_lock_silent_drop_witness :
    vbar_descriptor (aa64_view reginfo_VBAR) ∧
    vbar_el1_write 1 (set_vmsa_lock env_example 1) (aa64_view reginfo_VBAR)
      0x4200000000000000 = some (set_vmsa_lock env_example 1) ∧
    vbar_el1_write 1 env_example (aa64_view reginfo_VBAR) 0x4200000000000000
      = some (set_bank_slot false DualReg.vbar 0x4200000000000000 env_example) :=
  ⟨vbar_descriptor_VBAR,
   ((vbar_lock_silent_drop 1 (set_vmsa_lock env_example 1) (aa64_view reginfo_VBAR)
      vbar_descriptor_VBAR).1 rfl).2 (by decide) 0x4200000000000000 (by decide),
   (vbar_lock_silent_drop 1 env_example (aa64_view reginfo_VBAR)
      vbar_descriptor_VBAR).2.1 rfl (by decide) 0x4200000000000000⟩

/-- C6. For every context, `access_gxf` returns `CP_ACCESS_OK` exactly when
the mode flag is guarded and `CP_ACCESS_TRAP` exactly when it is not; the
answer does not depend on the register description or on the direction of the
access, and the context is handed back unchanged. -/
theorem access_gxf_iff_guarded (env : CPUARMState) (ri : ARMCPRegInfo) (isread : Bool) :
    ((access_gxf env ri isread).1 = CPAccessResult.CP_ACCESS_OK ↔ env.gxf.guarded = true) ∧
    ((access_gxf env ri isread).1 = CPAccessResult.CP_ACCESS_TRAP ↔
      env.gxf.guarded = false) ∧
    (access_gxf env ri isread).2 = env ∧
    (∀ (rq : ARMCPRegInfo) (d : Bool), access_gxf env rq d = access_gxf env ri isread) := by
  unfold access_gxf
  cases env.gxf.guarded <;> simp

/-- C7. For every context with `guarded = false`, every alias register
(the registered entries named TPIDR_GL11, VBAR_GL11, SPSR_GL11, ESR_GL11,
ELR_GL11, FAR_GL11, which are exactly the entries whose access function is
`access_gxf`), every value and both directions: the access made through the
table (access check, then the raw field handler) yields the trap outcome and
the context after the attempt is the context before it. -/
theorem alias_access_traps_in_normal_mode (m : Nat)
    (tvm : CPUARMState → ARMCPRegInfo → Bool → CPAccessResult) (env : CPUARMState)
    (ri : ARMCPRegInfo) (v : Nat) (hg : env.gxf.guarded = false)
    (hmem : ri ∈ t8030cpu_init_gxf) (hname : ri.name ∈ alias_names) :
    cp_read tvm env ri = CPOutcome.trap env ∧
    cp_write m tvm env ri v = CPOutcome.trap env ∧
    (t8030cpu_init_gxf.filter (fun r => r.accessfn == some AccessFn.access_gxf)).map
      (fun r => r.name) = alias_names := by
  obtain ⟨r, hr⟩ := alias_of_name ri hmem hname
  refine ⟨?_, ?_, by decide⟩
  · rw [alias_read_eq tvm env r ri hr]; simp [hg]
  · rw [alias_write_eq m tvm env r ri v hr]; simp [hg]

theorem alias_access_traps_in_normal_mode_witness :
    env_example.gxf.guarded = false ∧
    aa64_view reginfo_TPIDR_GL11 ∈ t8030cpu_init_gxf ∧
    (aa64_view reginfo_TPIDR_GL11).name ∈ alias_names ∧
    (cp_read tvm_permit env_example (aa64_view reginfo_TPIDR_GL11)
        = CPOutcome.trap env_example ∧
      cp_write 1 tvm_permit env_example (aa64_view reginfo_TPIDR_GL11) 0x1234
        = CPOutcome.trap env_example ∧
      (t8030cpu_init_gxf.filter (fun r => r.accessfn == some AccessFn.access_gxf)).map
        (fun r => r.name) = alias_names) :=
  ⟨rfl, by decide, by decide,
   alias_access_traps_in_normal_mode 1 tvm_permit env_example (aa64_view reginfo_TPIDR_GL11)
     0x1234 rfl (by decide) (by decide)⟩

/-- C8. For every context with `guarded = true`, every value `v` and every
dual-view register `X` that has an alias `X_GL11` (tpidr, vbar, spsr, elr, esr,
far): the alias write of `v` is permitted and stores `v` in the normal-bank
slot of `X`; every shadow slot and the entry vector are unchanged; once the
mode flag is switched to normal, the dual-view read of `X` returns `v`. The
alias read is permitted and returns the normal-bank slot of `X`, whereas the
dual-view read of `X` in the same guarded context returns the shadow slot. -/
theorem alias_access_reaches_normal_bank (m : Nat)
    (tvm : CPUARMState → ARMCPRegInfo → Bool → CPAccessResult) (env : CPUARMState)
    (r : DualReg) (ri rq : ARMCPRegInfo) (v : Nat) (hg : env.gxf.guarded = true)
    (hr : alias_entry r = some ri) (hrq : r = DualReg.vbar → vbar_descriptor rq) :
    ri ∈ t8030cpu_init_gxf ∧
    cp_write m tvm env ri v = CPOutcome.done (set_bank_slot false r v env) ∧
    normal_slot r (set_bank_slot false r v env) = v ∧
    (∀ q, shadow_slot q (set_bank_slot false r v env) = shadow_slot q env) ∧
    (set_bank_slot false r v env).gxf.gxf_enter_el1 = env.gxf.gxf_enter_el1 ∧
    dual_read r (set_guarded (set_bank_slot false r v env) false) rq =
      some (v, set_guarded (set_bank_slot false r v env) false) ∧
    cp_read tvm env ri = CPOutcome.done (normal_slot r env, env) ∧
    dual_read r env rq = some (shadow_slot r env, env) := by
  refine ⟨?_, ?_, ?_, ?_, ?_, ?_, ?_, ?_⟩
  · rw [alias_entry_eq] at hr
    cases r <;> simp at hr <;> subst hr <;> decide
  · rw [alias_write_eq m tvm env r ri v hr]; simp [hg]
  · exact bank_slot_set_same false r v env
  · intro q
    exact bank_slot_set_other false true r q v env (by simp)
  · exact (set_bank_slot_rest false r v env).2.1
  · rw [dual_read_eq r _ rq hrq]
    have h := bank_slot_set_same false r v env
    obtain ⟨sp, elr, spsr, cp15, ⟨g, enter, a1, a2, a3, a4, a5, a6, a7⟩⟩ := env
    cases r <;> simp_all [set_guarded, set_bank_slot, bank_slot, normal_slot]
  · rw [alias_read_eq tvm env r ri hr]; simp [hg]
  · rw [dual_read_eq r env rq hrq]; simp [hg]

theorem alias_access_reaches_normal_bank_witness :
    (set_guarded env_example true).gxf.guarded = true ∧
    alias_entry DualReg.tpidr = some reginfo_TPIDR_GL11 ∧
    (DualReg.tpidr = DualReg.vbar → vbar_descriptor reginfo_TPIDR_EL1) ∧
    cp_write 1 tvm_permit (set_guarded env_example true) reginfo_TPIDR_GL11 0x1234 =
      CPOutcome.done (set_bank_slot false DualReg.tpidr 0x1234 (set_guarded env_example true)) ∧
    dual_read DualReg.tpidr
      (set_guarded (set_bank_slot false DualReg.tpidr 0x1234 (set_guarded env_example true))
        false) reginfo_TPIDR_EL1 =
      some (0x1234,
        set_guarded (set_bank_slot false DualReg.tpidr 0x1234 (set_guarded env_example true))
          false) :=
  have h := alias_access_reaches_normal_bank 1 tvm_permit (set_guarded env_example true)
    DualReg.tpidr reginfo_TPIDR_GL11 reginfo_TPIDR_EL1 0x1234 rfl (by decide)
    (fun h => absurd h (by decide))
  ⟨rfl, by decide, fun h => absurd h (by decide), h.2.1, h.2.2.2.2.2.1⟩

/-- C9, as stated, fails: in a guarded context with both vector bases aligned
the write of `0x5001` to VBAR_GL11 is permitted and stores `0x5001` unmasked in
the normal-bank vbar, so the alignment predicate no longer holds. -/
theorem vbar_gl11_write_breaks_alignment :
    (set_guarded env_example true).gxf.guarded = true ∧
    vbar_aligned (set_guarded env_example true) ∧
    cp_write 1 tvm_permit (set_guarded env_example true) (aa64_view reginfo_VBAR_GL11) 0x5001 =
      CPOutcome.done (set_bank_slot false DualReg.vbar 0x5001 (set_guarded env_example true)) ∧
    (set_bank_slot false DualReg.vbar 0x5001 (set_guarded env_example true)).cp15.vbar_el1
      = 0x5001 ∧
    ¬ vbar_aligned (set_bank_slot false DualReg.vbar 0x5001 (set_guarded env_example true)) := by
  decide

/-- C9, amended. The alignment predicate (both vector bases have their low 5
bits zero) is preserved, for every context and value, by every dual-view
write, by every permitted alias write other than VBAR_GL11 and by the
entry-vector write. A permitted VBAR_GL11 write stores the value unmasked in
the normal-bank vbar, so it preserves the predicate exactly when the value
written has its low 5 bits zero. -/
theorem vbar_alignment_preserved (m : Nat)
    (tvm : CPUARMState → ARMCPRegInfo → Bool → CPAccessResult) (env : CPUARMState) (v : Nat)
    (hal : vbar_aligned env) :
    (∀ (r : DualReg) (ri : ARMCPRegInfo), (r = DualReg.vbar → vbar_descriptor ri) →
      ∃ env1, dual_write m r env ri v = some env1 ∧ vbar_aligned env1) ∧
    (∀ (r : DualReg) (ri : ARMCPRegInfo), alias_entry r = some ri → r ≠ DualReg.vbar →
      env.gxf.guarded = true →
      ∃ env1, cp_write m tvm env ri v = CPOutcome.done env1 ∧ vbar_aligned env1) ∧
    (∃ env1, cp_write m tvm env (aa64_view reginfo_GXF_ENTER_EL1) v = CPOutcome.done env1 ∧
      vbar_aligned env1) ∧
    (∀ ri : ARMCPRegInfo, alias_entry DualReg.vbar = some ri → env.gxf.guarded = true →
      ∃ env1, cp_write m tvm env ri v = CPOutcome.done env1 ∧ env1.cp15.vbar_el1 = v ∧
        (vbar_aligned env1 ↔ v % 32 = 0)) := by
  refine ⟨?_, ?_, ?_, ?_⟩
  · intro r ri hri
    rw [dual_write_eq m r env ri v hri]
    by_cases hd : lock_drops m r env
    · exact ⟨env, by rw [if_pos hd], hal⟩
    · refine ⟨_, by rw [if_neg hd], vbar_aligned_set_bank_slot _ _ _ _ hal ?_⟩
      intro hr
      simp only [stored_value, hr, if_true]
      exact and_not_0x1f_mod v
  · intro r ri hr hne hg
    rw [alias_write_eq m tvm env r ri v hr, if_pos hg]
    exact ⟨_, rfl, vbar_aligned_set_bank_slot _ _ _ _ hal (fun h => absurd h hne)⟩
  · rw [entry_vector_write_eq]
    exact ⟨_, rfl, hal⟩
  · intro ri hr hg
    rw [alias_write_eq m tvm env DualReg.vbar ri v hr, if_pos hg]
    refine ⟨_, rfl, rfl, ?_⟩
    constructor
    · intro h; exact h.1
    · intro h; exact ⟨h, hal.2⟩

theorem vbar_alignment_preserved_witness :
    vbar_aligned (set_guarded env_example true) ∧
    (∃ env1, cp_write 1 tvm_permit (set_guarded env_example true)
        (aa64_view reginfo_GXF_ENTER_EL1) 0x8001 = CPOutcome.done env1 ∧ vbar_aligned env1) ∧
    (∃ env1, dual_write 1 DualReg.vbar (set_guarded env_example true)
        (aa64_view reginfo_VBAR) 0x8001 = some env1 ∧ vbar_aligned env1) :=
  have h := vbar_alignment_preserved 1 tvm_permit (set_guarded env_example true) 0x8001
    (by decide)
  ⟨by decide, h.2.2.1, h.1 DualReg.vbar (aa64_view reginfo_VBAR) (fun _ => vbar_descriptor_VBAR)⟩

/-- C10, as stated, fails: in a guarded context whose lock register has every
bit set, the write of `0x6000` to VBAR_GL11 is permitted and replaces the
normal-bank vbar `0x5000` by `0x6000`. -/
theorem vbar_gl11_write_ignores_lock :
    vbar_locked 1 (set_vmsa_lock (set_guarded env_example true) 0xFFFFFFFFFFFFFFFF) ∧
    (set_vmsa_lock (set_guarded env_example true) 0xFFFFFFFFFFFFFFFF).cp15.vbar_el1
      = 0x5000 ∧
    cp_write 1 tvm_permit (set_vmsa_lock (set_guarded env_example true) 0xFFFFFFFFFFFFFFFF)
        (aa64_view reginfo_VBAR_GL11) 0x6000 =
      CPOutcome.done (set_bank_slot false DualReg.vbar 0x6000
        (set_vmsa_lock (set_guarded env_example true) 0xFFFFFFFFFFFFFFFF)) ∧
    (set_bank_slot false DualReg.vbar 0x6000
      (set_vmsa_lock (set_guarded env_example true) 0xFFFFFFFFFFFFFFFF)).cp15.vbar_el1
      = 0x6000 := by
  decide

/-- C10, amended. With the lock bit set, in either mode and for every value,
the normal-bank vbar is the same after as before every dual-view write of any
register, every alias write other than a VBAR_GL11 write made in guarded mode
(a permitted write to another alias, or any alias write trapped in normal
mode) and the entry-vector write. A VBAR_GL11 write made in guarded mode is
permitted and sets the normal-bank vbar to the value written, whether or not
the lock is set: that part is stated for every context, with no assumption on
the lock register. -/
theorem locked_normal_vbar_frozen (m : Nat)
    (tvm : CPUARMState → ARMCPRegInfo → Bool → CPAccessResult) (env : CPUARMState)
    (v : Nat) :
    (vbar_locked m env →
      (∀ (r : DualReg) (ri : ARMCPRegInfo), (r = DualReg.vbar → vbar_descriptor ri) →
        ∃ env1, dual_write m r env ri v = some env1 ∧
          env1.cp15.vbar_el1 = env.cp15.vbar_el1) ∧
      (∀ (r : DualReg) (ri : ARMCPRegInfo), alias_entry r = some ri →
        ¬ (r = DualReg.vbar ∧ env.gxf.guarded = true) →
        ∃ env1, cp_write m tvm env ri v =
            (if env.gxf.guarded = true then CPOutcome.done env1 else CPOutcome.trap env1) ∧
          env1.cp15.vbar_el1 = env.cp15.vbar_el1) ∧
      (∃ env1, cp_write m tvm env (aa64_view reginfo_GXF_ENTER_EL1) v = CPOutcome.done env1 ∧
        env1.cp15.vbar_el1 = env.cp15.vbar_el1)) ∧
    (∀ ri : ARMCPRegInfo, alias_entry DualReg.vbar = some ri → env.gxf.guarded = true →
      ∃ env1, cp_write m tvm env ri v = CPOutcome.done env1 ∧ env1.cp15.vbar_el1 = v) := by
  refine ⟨fun hl => ⟨?_, ?_, ?_⟩, ?_⟩
  · intro r ri hri
    rw [dual_write_eq m r env ri v hri]
    by_cases hd : lock_drops m r env
    · exact ⟨env, by rw [if_pos hd], rfl⟩
    · refine ⟨_, by rw [if_neg hd], normal_vbar_set_bank_slot _ _ _ _ ?_⟩
      rintro ⟨hg, hr⟩
      exact hd ⟨hr, hg, hl⟩
  · intro r ri hr hne
    rw [alias_write_eq m tvm env r ri v hr]
    by_cases hg : env.gxf.guarded = true
    · refine ⟨set_bank_slot false r v env, by simp [hg], normal_vbar_set_bank_slot _ _ _ _ ?_⟩
      rintro ⟨_, hv⟩
      exact hne ⟨hv, hg⟩
    · exact ⟨env, by simp [hg], rfl⟩
  · rw [entry_vector_write_eq]
    exact ⟨_, rfl, rfl⟩
  · intro ri hr hg
    rw [alias_write_eq m tvm env DualReg.vbar ri v hr, if_pos hg]
    exact ⟨_, rfl, rfl⟩

theorem locked_normal_vbar_frozen_witness :
    vbar_locked 1 (set_vmsa_lock env_example 1) ∧
    (∃ env1, dual_write 1 DualReg.vbar (set_vmsa_lock env_example 1) (aa64_view reginfo_VBAR)
        0x6000 = some env1 ∧
      env1.cp15.vbar_el1 = (set_vmsa_lock env_example 1).cp15.vbar_el1) ∧
    (∃ env1, cp_write 1 tvm_permit (set_vmsa_lock env_example 1)
        (aa64_view reginfo_GXF_ENTER_EL1) 0x6000 = CPOutcome.done env1 ∧
      env1.cp15.vbar_el1 = (set_vmsa_lock env_example 1).cp15.vbar_el1) ∧
    ¬ vbar_locked 1 (set_guarded env_example true) ∧
    (∃ env1, cp_write 1 tvm_permit (set_guarded env_example true) reginfo_VBAR_GL11 0x6000
        = CPOutcome.done env1 ∧ env1.cp15.vbar_el1 = 0x6000) ∧
    vbar_locked 1 (set_vmsa_lock (set_guarded env_example true) 1) ∧
    (∃ env1, cp_write 1 tvm_permit (set_vmsa_lock (set_guarded env_example true) 1)
        reginfo_VBAR_GL11 0x6000 = CPOutcome.done env1 ∧ env1.cp15.vbar_el1 = 0x6000) :=
  have h := (locked_normal_vbar_frozen 1 tvm_permit (set_vmsa_lock env_example 1) 0x6000).1
    (by decide)
  ⟨by decide, h.1 DualReg.vbar (aa64_view reginfo_VBAR) (fun _ => vbar_descriptor_VBAR),
   h.2.2, by decide,
   (locked_normal_vbar_frozen 1 tvm_permit (set_guarded env_example true) 0x6000).2
     reginfo_VBAR_GL11 (by decide) rfl,
   by decide,
   (locked_normal_vbar_frozen 1 tvm_permit (set_vmsa_lock (set_guarded env_example true) 1)
     0x6000).2 reginfo_VBAR_GL11 (by decide) rfl⟩

/-! ### Accesses through the dual-view entries of the table -/

theorem dual_entry_eq (r : DualReg) :
    dual_entry r =
      match r with
      | .sp => none
      | .tpidr => some (aa64_view reginfo_TPIDR_EL1)
      | .vbar => some (aa64_view reginfo_VBAR)
      | .spsr => some (aa64_view reginfo_SPSR_EL1)
      | .elr => some (aa64_view reginfo_ELR_EL1)
      | .esr => some (aa64_view reginfo_ESR_EL1)
      | .far => some (aa64_view reginfo_FAR_EL1) := by
  cases r <;> decide

theorem dual_entry_descriptor (r : DualReg) (ri : ARMCPRegInfo) (h : dual_entry r = some ri) :
    r = DualReg.vbar → vbar_descriptor ri := by
  intro hr
  subst hr
  rw [dual_entry_eq] at h
  simp only [Option.some.injEq] at h
  subst h
  exact vbar_descriptor_VBAR

theorem mem_table_cases (ri : ARMCPRegInfo) (h : ri ∈ t8030cpu_init_gxf) :
    (∃ r, dual_entry r = some ri) ∨ (∃ r, alias_entry r = some ri) ∨
      ri = aa64_view reginfo_GXF_ENTER_EL1 := by
  simp only [t8030cpu_init_gxf, define_arm_cp_regs, t8030gxf_cp_reginfo, List.map_cons,
    List.map_nil, List.mem_cons, List.mem_nil_iff, or_false] at h
  rcases h with rfl | rfl | rfl | rfl | rfl | rfl | rfl | rfl | rfl | rfl | rfl | rfl | rfl
  all_goals first
    | exact Or.inr (Or.inr rfl)
    | exact Or.inl ⟨DualReg.tpidr, by decide⟩
    | exact Or.inl ⟨DualReg.vbar, by decide⟩
    | exact Or.inl ⟨DualReg.spsr, by decide⟩
    | exact Or.inl ⟨DualReg.elr, by decide⟩
    | exact Or.inl ⟨DualReg.esr, by decide⟩
    | exact Or.inl ⟨DualReg.far, by decide⟩
    | exact Or.inr (Or.inl ⟨DualReg.tpidr, by decide⟩)
    | exact Or.inr (Or.inl ⟨DualReg.vbar, by decide⟩)
    | exact Or.inr (Or.inl ⟨DualReg.spsr, by decide⟩)
    | exact Or.inr (Or.inl ⟨DualReg.esr, by decide⟩)
    | exact Or.inr (Or.inl ⟨DualReg.elr, by decide⟩)
    | exact Or.inr (Or.inl ⟨DualReg.far, by decide⟩)

theorem dual_entry_check (tvm : CPUARMState → ARMCPRegInfo → Bool → CPAccessResult)
    (env : CPUARMState) (r : DualReg) (ri : ARMCPRegInfo) (isread : Bool)
    (h : dual_entry r = some ri) :
    cp_access_check tvm env ri isread =
      (if r = DualReg.esr ∨ r = DualReg.far then tvm env ri isread
       else CPAccessResult.CP_ACCESS_OK, env) := by
  rw [dual_entry_eq] at h
  cases r <;> simp at h <;> subst h <;> rfl

theorem dual_entry_write_eq (m : Nat)
    (tvm : CPUARMState → ARMCPRegInfo → Bool → CPAccessResult) (env : CPUARMState)
    (r : DualReg) (ri : ARMCPRegInfo) (v : Nat) (h : dual_entry r = some ri) :
    cp_write m tvm env ri v =
      if (cp_access_check tvm env ri false).1 = CPAccessResult.CP_ACCESS_OK then
        CPOutcome.done (if lock_drops m r env then env
          else set_bank_slot env.gxf.guarded r (stored_value r v) env)
      else CPOutcome.trap env := by
  have hd := dual_write_eq m r env ri v (dual_entry_descriptor r ri h)
  have hc := dual_entry_check tvm env r ri false h
  have hw : ri.writefn = some r.writefn := by
    rw [dual_entry_eq] at h
    cases r <;> simp at h <;> subst h <;> rfl
  simp only [dual_write] at hd
  unfold cp_write
  rw [hc, hw]
  cases hres : (if r = DualReg.esr ∨ r = DualReg.far then tvm env ri false
      else CPAccessResult.CP_ACCESS_OK)
  · simp [hd]
  · simp

theorem dual_entry_read_eq (tvm : CPUARMState → ARMCPRegInfo → Bool → CPAccessResult)
    (env : CPUARMState) (r : DualReg) (ri : ARMCPRegInfo) (h : dual_entry r = some ri) :
    cp_read tvm env ri =
      if (cp_access_check tvm env ri true).1 = CPAccessResult.CP_ACCESS_OK then
        CPOutcome.done (bank_slot env.gxf.guarded r env, env)
      else CPOutcome.trap env := by
  have hd := dual_read_eq r env ri (dual_entry_descriptor r ri h)
  have hc := dual_entry_check tvm env r ri true h
  have hw : ri.readfn = some r.readfn := by
    rw [dual_entry_eq] at h
    cases r <;> simp at h <;> subst h <;> rfl
  simp only [dual_read] at hd
  unfold cp_read
  rw [hc, hw]
  cases hres : (if r = DualReg.esr ∨ r = DualReg.far then tvm env ri true
      else CPAccessResult.CP_ACCESS_OK)
  · simp [hd, bank_slot]
  · simp

/-! ### Shape of the context an access leaves behind -/

theorem cp_write_shape (m : Nat)
    (tvm : CPUARMState → ARMCPRegInfo → Bool → CPAccessResult) (env : CPUARMState)
    (ri : ARMCPRegInfo) (v : Nat) (h : ri ∈ t8030cpu_init_gxf) :
    ∃ env1, (cp_write m tvm env ri v = CPOutcome.done env1 ∨
        cp_write m tvm env ri v = CPOutcome.trap env1) ∧ one_slot_apart env env1 := by
  rcases mem_table_cases ri h with ⟨r, hr⟩ | ⟨r, hr⟩ | rfl
  · rw [dual_entry_write_eq m tvm env r ri v hr]
    by_cases hc : (cp_access_check tvm env ri false).1 = CPAccessResult.CP_ACCESS_OK
    · rw [if_pos hc]
      by_cases hd : lock_drops m r env
      · rw [if_pos hd]; exact ⟨env, Or.inl rfl, Or.inl rfl⟩
      · rw [if_neg hd]
        exact ⟨_, Or.inl rfl, Or.inr (Or.inl ⟨_, _, _, rfl, fun hg => hg⟩)⟩
    · rw [if_neg hc]; exact ⟨env, Or.inr rfl, Or.inl rfl⟩
  · rw [alias_write_eq m tvm env r ri v hr]
    by_cases hg : env.gxf.guarded = true
    · rw [if_pos hg]
      exact ⟨_, Or.inl rfl, Or.inr (Or.inl ⟨false, r, v, rfl, fun _ => rfl⟩)⟩
    · rw [if_neg hg]; exact ⟨env, Or.inr rfl, Or.inl rfl⟩
  · rw [entry_vector_write_eq]
    exact ⟨_, Or.inl rfl, Or.inr (Or.inr ⟨v, rfl⟩)⟩

theorem cp_read_shape (tvm : CPUARMState → ARMCPRegInfo → Bool → CPAccessResult)
    (env : CPUARMState) (ri : ARMCPRegInfo) (h : ri ∈ t8030cpu_init_gxf) :
    (∃ x, cp_read tvm env ri = CPOutcome.done (x, env)) ∨
      cp_read tvm env ri = CPOutcome.trap env := by
  rcases mem_table_cases ri h with ⟨r, hr⟩ | ⟨r, hr⟩ | rfl
  · rw [dual_entry_read_eq tvm env r ri hr]
    by_cases hc : (cp_access_check tvm env ri true).1 = CPAccessResult.CP_ACCESS_OK
    · rw [if_pos hc]; exact Or.inl ⟨_, rfl⟩
    · rw [if_neg hc]; exact Or.inr rfl
  · rw [alias_read_eq tvm env r ri hr]
    by_cases hg : env.gxf.guarded = true
    · rw [if_pos hg]; exact Or.inl ⟨_, rfl⟩
    · rw [if_neg hg]; exact Or.inr rfl
  · rw [entry_vector_read_eq]; exact Or.inl ⟨_, rfl⟩

theorem perform_shape (m : Nat)
    (tvm : CPUARMState → ARMCPRegInfo → Bool → CPAccessResult) (a : Access)
    (env : CPUARMState) (h : a.offered) :
    ∃ obs env1, perform m tvm a env = some (obs, env1) ∧ one_slot_apart env env1 := by
  cases a with
  | handler_read r ri =>
    simp only [perform, dual_read_eq r env ri h]
    exact ⟨_, _, rfl, Or.inl rfl⟩
  | handler_write r ri v =>
    simp only [perform, dual_write_eq m r env ri v h]
    by_cases hd : lock_drops m r env
    · rw [if_pos hd]; exact ⟨_, _, rfl, Or.inl rfl⟩
    · rw [if_neg hd]
      exact ⟨_, _, rfl, Or.inr (Or.inl ⟨_, _, _, rfl, fun hg => hg⟩)⟩
  | reg_read ri =>
    rcases cp_read_shape tvm env ri h with ⟨x, hx⟩ | hx
    · simp only [perform, hx]; exact ⟨_, _, rfl, Or.inl rfl⟩
    · simp only [perform, hx]; exact ⟨_, _, rfl, Or.inl rfl⟩
  | reg_write ri v =>
    obtain ⟨env1, hx | hx, hs⟩ := cp_write_shape m tvm env ri v h
    · simp only [perform, hx]; exact ⟨_, _, rfl, hs⟩
    · simp only [perform, hx]; exact ⟨_, _, rfl, hs⟩
  | check ri isread =>
    refine ⟨_, _, rfl, Or.inl ?_⟩
    unfold access_gxf
    cases env.gxf.guarded <;> rfl

theorem one_slot_apart_rest (env env1 : CPUARMState) (h : one_slot_apart env env1) :
    env1.gxf.guarded = env.gxf.guarded ∧
    env1.cp15.vmsa_lock_el1 = env.cp15.vmsa_lock_el1 ∧
    env1.cp15.vbar_s = env.cp15.vbar_s ∧
    (env.gxf.guarded = false → ∀ q, shadow_slot q env1 = shadow_slot q env) := by
  rcases h with rfl | ⟨g, r, x, rfl, hg⟩ | ⟨x, rfl⟩
  · exact ⟨rfl, rfl, rfl, fun _ _ => rfl⟩
  · obtain ⟨h1, _, h3, h4⟩ := set_bank_slot_rest g r x env
    refine ⟨h1, h3, h4, fun hn q => ?_⟩
    have hf := hg hn
    subst hf
    exact bank_slot_set_other false true r q x env (by simp)
  · exact ⟨rfl, rfl, rfl, fun _ q => by cases q <;> rfl⟩

/-- C11. No access this file offers changes the mode flag or the lock
register: every call of a dual-view read or write handler (any of the seven
registers), every read or write of a registered entry made through the table
(the alias entries, the entry vector, the dual-view entries) and every access
check completes and leaves both as they were. Hence any finite sequence of
such accesses completes with the mode flag (the active bank) unchanged and
the lock register unchanged; if the lock bit was set at the start it is set
at the end. -/
theorem accesses_keep_mode_and_lock (m : Nat)
    (tvm : CPUARMState → ARMCPRegInfo → Bool → CPAccessResult) (l : List Access)
    (env : CPUARMState) (hl : ∀ a ∈ l, a.offered) :
    (∀ a : Access, a.offered → ∀ e : CPUARMState,
      ∃ obs e1, perform m tvm a e = some (obs, e1) ∧
        e1.gxf.guarded = e.gxf.guarded ∧
        e1.cp15.vmsa_lock_el1 = e.cp15.vmsa_lock_el1) ∧
    (∃ env1, perform_all m tvm l env = some env1 ∧
      env1.gxf.guarded = env.gxf.guarded ∧
      env1.cp15.vmsa_lock_el1 = env.cp15.vmsa_lock_el1 ∧
      (vbar_locked m env → vbar_locked m env1)) := by
  constructor
  · intro a ha e
    obtain ⟨obs, e1, hp, hs⟩ := perform_shape m tvm a e ha
    obtain ⟨h1, h2, _, _⟩ := one_slot_apart_rest e e1 hs
    exact ⟨obs, e1, hp, h1, h2⟩
  · induction l generalizing env with
    | nil => exact ⟨env, rfl, rfl, rfl, fun h => h⟩
    | cons a rest ih =>
      obtain ⟨obs, e1, hp, hs⟩ := perform_shape m tvm a env (hl a (List.mem_cons_self a rest))
      obtain ⟨h1, h2, _, _⟩ := one_slot_apart_rest env e1 hs
      obtain ⟨e2, hr, g1, g2, _⟩ := ih e1 (fun b hb => hl b (List.mem_cons_of_mem a hb))
      refine ⟨e2, ?_, g1.trans h1, g2.trans h2, ?_⟩
      · simp only [perform_all, hp, hr]
      · intro hlock
        simp only [vbar_locked] at hlock ⊢
        rw [g2, h2]
        exact hlock

theorem accesses_keep_mode_and_lock_witness :
    (∀ a ∈ [Access.handler_write DualReg.vbar (aa64_view reginfo_VBAR) 0x6000,
            Access.reg_write (aa64_view reginfo_VBAR_GL11) 0x7001,
            Access.reg_write (aa64_view reginfo_GXF_ENTER_EL1) 0x8004,
            Access.handler_write DualReg.sp reginfo_TPIDR_EL1 0x9000,
            Access.reg_read (aa64_view reginfo_ESR_EL1),
            Access.check reginfo_FAR_GL11 true], a.offered) ∧
    ∃ env1, perform_all 1 tvm_permit
        [Access.handler_write DualReg.vbar (aa64_view reginfo_VBAR) 0x6000,
         Access.reg_write (aa64_view reginfo_VBAR_GL11) 0x7001,
         Access.reg_write (aa64_view reginfo_GXF_ENTER_EL1) 0x8004,
         Access.handler_write DualReg.sp reginfo_TPIDR_EL1 0x9000,
         Access.reg_read (aa64_view reginfo_ESR_EL1),
         Access.check reginfo_FAR_GL11 true]
        (set_vmsa_lock env_example 1) = some env1 ∧
      env1.gxf.guarded = (set_vmsa_lock env_example 1).gxf.guarded ∧
      env1.cp15.vmsa_lock_el1 = (set_vmsa_lock env_example 1).cp15.vmsa_lock_el1 ∧
      (vbar_locked 1 (set_vmsa_lock env_example 1) → vbar_locked 1 env1) :=
  have hl : ∀ a ∈ [Access.handler_write DualReg.vbar (aa64_view reginfo_VBAR) 0x6000,
            Access.reg_write (aa64_view reginfo_VBAR_GL11) 0x7001,
            Access.reg_write (aa64_view reginfo_GXF_ENTER_EL1) 0x8004,
            Access.handler_write DualReg.sp reginfo_TPIDR_EL1 0x9000,
            Access.reg_read (aa64_view reginfo_ESR_EL1),
            Access.check reginfo_FAR_GL11 true], a.offered := by
    intro a ha
    simp only [List.mem_cons, List.mem_nil_iff, or_false] at ha
    rcases ha with rfl | rfl | rfl | rfl | rfl | rfl
    · exact fun _ => vbar_descriptor_VBAR
    · show _ ∈ t8030cpu_init_gxf; decide
    · show _ ∈ t8030cpu_init_gxf; decide
    · exact fun h => absurd h (by decide)
    · show _ ∈ t8030cpu_init_gxf; decide
    · trivial
  ⟨hl, (accesses_keep_mode_and_lock 1 tvm_permit _ (set_vmsa_lock env_example 1) hl).2⟩

/-! ### Two contexts that differ in the shadow slots only -/

theorem agree_set_normal (e1 e2 : CPUARMState) (r : DualReg) (x : Nat)
    (h : agree_outside_shadow e1 e2) :
    agree_outside_shadow (set_bank_slot false r x e1) (set_bank_slot false r x e2) := by
  obtain ⟨hn, hl, he, hg, hs⟩ := h
  refine ⟨fun q => ?_, ?_, ?_, ?_, ?_⟩
  · have hq := hn q
    revert hq
    cases r <;> cases q <;> intro hq <;> first | rfl | exact hq
  · cases r <;> exact hl
  · cases r <;> exact he
  · cases r <;> exact hg
  · cases r <;> exact hs

theorem agree_set_entry (e1 e2 : CPUARMState) (x : Nat) (h : agree_outside_shadow e1 e2) :
    agree_outside_shadow (set_entry_vector x e1) (set_entry_vector x e2) := by
  obtain ⟨hn, hl, _, hg, hs⟩ := h
  exact ⟨fun q => hn q, hl, rfl, hg, hs⟩

theorem agree_lock_drops (m : Nat) (r : DualReg) (e1 e2 : CPUARMState)
    (h : agree_outside_shadow e1 e2) : lock_drops m r e1 ↔ lock_drops m r e2 := by
  obtain ⟨_, hl, _, hg, _⟩ := h
  simp only [lock_drops, vbar_locked, hl, hg]

theorem shadow_set_normal (e : CPUARMState) (r q : DualReg) (x : Nat) :
    shadow_slot q (set_bank_slot false r x e) = shadow_slot q e :=
  bank_slot_set_other false true r q x e (by simp)

theorem dual_entry_local (r : DualReg) (ri : ARMCPRegInfo) (h : dual_entry r = some ri)
    (hc : ri.accessfn ≠ some AccessFn.access_tvm_trvm) :
    ¬ (r = DualReg.esr ∨ r = DualReg.far) := by
  rw [dual_entry_eq] at h
  cases r <;> simp at h <;> subst h <;> first | decide | exact absurd rfl hc

/-- C12. Normal mode cannot see or touch the shadow bank. Take two contexts,
both with `guarded = false`, that agree on the seven normal-bank slots, the
lock register and the entry vector and differ arbitrarily in the seven shadow
slots. Every access this file offers that is decided here (a dual-view read
or write handler call, an alias read or write, an entry-vector read or write,
an access through a dual-view entry without `access_tvm_trvm`, an access
check) completes in both, the guest sees the same outcome and the same value
in both, the seven shadow slots of each context are unchanged, and the two
contexts left behind still agree outside the shadow slots. -/
theorem normal_mode_blind_to_shadow (m : Nat)
    (tvm : CPUARMState → ARMCPRegInfo → Bool → CPAccessResult) (a : Access)
    (e1 e2 : CPUARMState) (h1 : e1.gxf.guarded = false) (h2 : e2.gxf.guarded = false)
    (hag : agree_outside_shadow e1 e2) (ha : a.offered) (hc : a.local_check) :
    ∃ obs f1 f2, perform m tvm a e1 = some (obs, f1) ∧
      perform m tvm a e2 = some (obs, f2) ∧
      (∀ q, shadow_slot q f1 = shadow_slot q e1) ∧
      (∀ q, shadow_slot q f2 = shadow_slot q e2) ∧
      agree_outside_shadow f1 f2 := by
  cases a with
  | handler_read r ri =>
    simp only [perform, dual_read_eq r _ ri ha, h1, h2]
    refine ⟨_, _, _, rfl, ?_, fun _ => rfl, fun _ => rfl, hag⟩
    simp [hag.1 r]
  | handler_write r ri v =>
    simp only [perform, dual_write_eq m r _ ri v ha, h1, h2]
    by_cases hd : lock_drops m r e1
    · rw [if_pos hd, if_pos ((agree_lock_drops m r e1 e2 hag).1 hd)]
      exact ⟨_, _, _, rfl, rfl, fun _ => rfl, fun _ => rfl, hag⟩
    · rw [if_neg hd, if_neg (fun h => hd ((agree_lock_drops m r e1 e2 hag).2 h))]
      exact ⟨_, _, _, rfl, rfl, fun q => shadow_set_normal e1 r q _, fun q => shadow_set_normal e2 r q _,
        agree_set_normal e1 e2 r _ hag⟩
  | reg_read ri =>
    rcases mem_table_cases ri ha with ⟨r, hr⟩ | ⟨r, hr⟩ | rfl
    · have hl := dual_entry_local r ri hr hc
      simp only [perform, dual_entry_read_eq tvm _ r ri hr, dual_entry_check tvm _ r ri true hr,
        if_neg hl, if_true, h1, h2, bank_slot]
      refine ⟨_, _, _, rfl, ?_, fun _ => rfl, fun _ => rfl, hag⟩
      simp [hag.1 r]
    · simp only [perform, alias_read_eq tvm _ r ri hr, h1, h2]
      exact ⟨_, _, _, rfl, rfl, fun _ => rfl, fun _ => rfl, hag⟩
    · simp only [perform, entry_vector_read_eq]
      refine ⟨_, _, _, rfl, ?_, fun _ => rfl, fun _ => rfl, hag⟩
      simp [hag.2.2.1]
  | reg_write ri v =>
    rcases mem_table_cases ri ha with ⟨r, hr⟩ | ⟨r, hr⟩ | rfl
    · have hl := dual_entry_local r ri hr hc
      simp only [perform, dual_entry_write_eq m tvm _ r ri v hr,
        dual_entry_check tvm _ r ri false hr, if_neg hl, if_true, h1, h2]
      by_cases hd : lock_drops m r e1
      · rw [if_pos hd, if_pos ((agree_lock_drops m r e1 e2 hag).1 hd)]
        exact ⟨_, _, _, rfl, rfl, fun _ => rfl, fun _ => rfl, hag⟩
      · rw [if_neg hd, if_neg (fun h => hd ((agree_lock_drops m r e1 e2 hag).2 h))]
        exact ⟨_, _, _, rfl, rfl, fun q => shadow_set_normal e1 r q _, fun q => shadow_set_normal e2 r q _,
          agree_set_normal e1 e2 r _ hag⟩
    · simp only [perform, alias_write_eq m tvm _ r ri v hr, h1, h2]
      exact ⟨_, _, _, rfl, rfl, fun _ => rfl, fun _ => rfl, hag⟩
    · simp only [perform, entry_vector_write_eq]
      exact ⟨_, _, _, rfl, rfl, fun q => by cases q <;> rfl, fun q => by cases q <;> rfl,
        agree_set_entry e1 e2 v hag⟩
  | check ri isread =>
    simp only [perform, access_gxf, h1, h2]
    exact ⟨_, _, _, rfl, rfl, fun _ => rfl, fun _ => rfl, hag⟩

theorem normal_mode_blind_to_shadow_witness :
    env_example.gxf.guarded = false ∧ env_example_shadow.gxf.guarded = false ∧
    agree_outside_shadow env_example env_example_shadow ∧
    (Access.handler_write DualReg.vbar (aa64_view reginfo_VBAR) 0x6021).offered ∧
    (Access.handler_write DualReg.vbar (aa64_view reginfo_VBAR) 0x6021).local_check ∧
    ∃ obs f1 f2,
      perform 1 tvm_permit (Access.handler_write DualReg.vbar (aa64_view reginfo_VBAR) 0x6021)
        env_example = some (obs, f1) ∧
      perform 1 tvm_permit (Access.handler_write DualReg.vbar (aa64_view reginfo_VBAR) 0x6021)
        env_example_shadow = some (obs, f2) ∧
      (∀ q, shadow_slot q f1 = shadow_slot q env_example) ∧
      (∀ q, shadow_slot q f2 = shadow_slot q env_example_shadow) ∧
      agree_outside_shadow f1 f2 :=
  have hag : agree_outside_shadow env_example env_example_shadow :=
    ⟨fun r => by cases r <;> rfl, rfl, rfl, rfl, rfl⟩
  ⟨rfl, rfl, hag, fun _ => vbar_descriptor_VBAR, trivial,
   normal_mode_blind_to_shadow 1 tvm_permit
     (Access.handler_write DualReg.vbar (aa64_view reginfo_VBAR) 0x6021)
     env_example env_example_shadow rfl rfl hag (fun _ => vbar_descriptor_VBAR) trivial⟩

/-- C13. The table does not expose every one of the seven dual-view
registers: no entry names `sp_el1_read` or `sp_el1_write`, so the stack
pointer has no entry, although both handlers are defined. Each of the other
six registers (tpidr, vbar, spsr, elr, esr, far) has exactly one entry whose
`readfn` and `writefn` are its two handlers, and the thirteen entries of the
table are these six, the six alias entries and the entry-vector entry. -/
theorem sp_handlers_not_registered :
    dual_entry DualReg.sp = none ∧
    (∀ e ∈ t8030gxf_cp_reginfo,
      e.readfn ≠ some ReadFn.sp_el1_read ∧ e.writefn ≠ some WriteFn.sp_el1_write) ∧
    (∀ r ∈ all_dual_regs, r ≠ DualReg.sp →
      (t8030gxf_cp_reginfo.filter
        (fun e => e.readfn == some r.readfn && e.writefn == some r.writefn)).length = 1) ∧
    t8030gxf_cp_reginfo.length = 13 ∧
    dual_entries.length = 6 ∧ alias_entries.length = 6 ∧
    (∀ e ∈ t8030cpu_init_gxf,
      e ∈ dual_entries ∨ e ∈ alias_entries ∨ e = aa64_view reginfo_GXF_ENTER_EL1) := by
  refine ⟨by decide, by decide, by decide, by decide, by decide, by decide, by decide⟩

theorem cp_write_keeps_entry_vector (m : Nat)
    (tvm : CPUARMState → ARMCPRegInfo → Bool → CPAccessResult) (env : CPUARMState)
    (ri : ARMCPRegInfo) (v : Nat) (h : ri ∈ t8030cpu_init_gxf)
    (hne : ri ≠ aa64_view reginfo_GXF_ENTER_EL1) :
    ∃ env1, (cp_write m tvm env ri v = CPOutcome.done env1 ∨
        cp_write m tvm env ri v = CPOutcome.trap env1) ∧
      env1.gxf.gxf_enter_el1 = env.gxf.gxf_enter_el1 := by
  rcases mem_table_cases ri h with ⟨r, hr⟩ | ⟨r, hr⟩ | rfl
  · rw [dual_entry_write_eq m tvm env r ri v hr]
    by_cases hc : (cp_access_check tvm env ri false).1 = CPAccessResult.CP_ACCESS_OK
    · rw [if_pos hc]
      by_cases hd : lock_drops m r env
      · rw [if_pos hd]; exact ⟨env, Or.inl rfl, rfl⟩
      · rw [if_neg hd]; exact ⟨_, Or.inl rfl, (set_bank_slot_rest _ _ _ _).2.1⟩
    · rw [if_neg hc]; exact ⟨env, Or.inr rfl, rfl⟩
  · rw [alias_write_eq m tvm env r ri v hr]
    by_cases hg : env.gxf.guarded = true
    · rw [if_pos hg]; exact ⟨_, Or.inl rfl, (set_bank_slot_rest _ _ _ _).2.1⟩
    · rw [if_neg hg]; exact ⟨env, Or.inr rfl, rfl⟩
  · exact absurd rfl hne

/-- C14. The entry vector is exposed only as GXF_ENTER_EL1: that entry is the
only one of the table whose field is the entry vector, it has no access
function and no handlers, and no write to another entry and no dual-view
write handler changes the entry vector. For every context, guarded or
normal, and every value `v`, the write of `v` is permitted and stores exactly
`v` in the entry-vector slot, the following read is permitted and returns
`v`, and the seven normal-bank slots, the seven shadow slots, the mode flag
and the lock register are unchanged. -/
theorem entry_vector_unconditional (m : Nat)
    (tvm : CPUARMState → ARMCPRegInfo → Bool → CPAccessResult) (env : CPUARMState)
    (v : Nat) :
    (t8030cpu_init_gxf.filter
      (fun e => e.fieldoffset == some FieldOffset.gxf_enter_el1)).map (fun e => e.name)
      = ["GXF_ENTER_EL1"] ∧
    aa64_view reginfo_GXF_ENTER_EL1 ∈ t8030cpu_init_gxf ∧
    (aa64_view reginfo_GXF_ENTER_EL1).accessfn = none ∧
    (aa64_view reginfo_GXF_ENTER_EL1).readfn = none ∧
    (aa64_view reginfo_GXF_ENTER_EL1).writefn = none ∧
    cp_write m tvm env (aa64_view reginfo_GXF_ENTER_EL1) v =
      CPOutcome.done (set_entry_vector v env) ∧
    (set_entry_vector v env).gxf.gxf_enter_el1 = v ∧
    cp_read tvm (set_entry_vector v env) (aa64_view reginfo_GXF_ENTER_EL1) =
      CPOutcome.done (v, set_entry_vector v env) ∧
    (∀ (b : Bool) (q : DualReg),
      bank_slot b q (set_entry_vector v env) = bank_slot b q env) ∧
    (set_entry_vector v env).gxf.guarded = env.gxf.guarded ∧
    (set_entry_vector v env).cp15.vmsa_lock_el1 = env.cp15.vmsa_lock_el1 ∧
    (∀ ri ∈ t8030cpu_init_gxf, ri ≠ aa64_view reginfo_GXF_ENTER_EL1 →
      ∃ env1, (cp_write m tvm env ri v = CPOutcome.done env1 ∨
          cp_write m tvm env ri v = CPOutcome.trap env1) ∧
        env1.gxf.gxf_enter_el1 = env.gxf.gxf_enter_el1) ∧
    (∀ (r : DualReg) (ri : ARMCPRegInfo), (r = DualReg.vbar → vbar_descriptor ri) →
      ∃ env1, dual_write m r env ri v = some env1 ∧
        env1.gxf.gxf_enter_el1 = env.gxf.gxf_enter_el1) := by
  refine ⟨by decide, by decide, rfl, rfl, rfl, entry_vector_write_eq m tvm env v, rfl,
    entry_vector_read_eq tvm _, fun b q => by cases b <;> cases q <;> rfl, rfl, rfl,
    fun ri h hne => cp_write_keeps_entry_vector m tvm env ri v h hne, ?_⟩
  intro r ri hri
  rw [dual_write_eq m r env ri v hri]
  by_cases hd : lock_drops m r env
  · rw [if_pos hd]; exact ⟨env, rfl, rfl⟩
  · rw [if_neg hd]; exact ⟨_, rfl, (set_bank_slot_rest _ _ _ _).2.1⟩

/-- C15. In the table the dual-view entries ESR_EL1 and FAR_EL1 carry the
access function `access_tvm_trvm`, the dual-view entries TPIDR_EL1, VBAR,
SPSR_EL1 and ELR_EL1 carry none, and every alias entry carries `access_gxf`.
Accordingly an access to ESR_EL1 or FAR_EL1 is carried out by the bank
dispatch exactly when `access_tvm_trvm` permits it and traps otherwise,
whatever the mode flag is; an access to one of the other four dual-view
entries is always carried out. -/
theorem dual_entry_access_functions (m : Nat)
    (tvm : CPUARMState → ARMCPRegInfo → Bool → CPAccessResult) (env : CPUARMState)
    (v : Nat) :
    (∀ e ∈ t8030gxf_cp_reginfo, e.name ∈ ["ESR_EL1", "FAR_EL1"] →
      e.accessfn = some AccessFn.access_tvm_trvm ∧ e.readfn.isSome ∧ e.writefn.isSome) ∧
    (∀ e ∈ t8030gxf_cp_reginfo, e.name ∈ ["TPIDR_EL1", "VBAR", "SPSR_EL1", "ELR_EL1"] →
      e.accessfn = none ∧ e.readfn.isSome ∧ e.writefn.isSome) ∧
    (∀ e ∈ t8030gxf_cp_reginfo, e.name ∈ alias_names →
      e.accessfn = some AccessFn.access_gxf) ∧
    dual_entries.map (fun e => e.name) =
      ["TPIDR_EL1", "VBAR", "SPSR_EL1", "ELR_EL1", "ESR_EL1", "FAR_EL1"] ∧
    (∀ (r : DualReg) (ri : ARMCPRegInfo), dual_entry r = some ri →
      (r = DualReg.esr ∨ r = DualReg.far) →
      cp_read tvm env ri =
        (if tvm env ri true = CPAccessResult.CP_ACCESS_OK
         then CPOutcome.done (bank_slot env.gxf.guarded r env, env)
         else CPOutcome.trap env) ∧
      cp_write m tvm env ri v =
        (if tvm env ri false = CPAccessResult.CP_ACCESS_OK
         then CPOutcome.done (set_bank_slot env.gxf.guarded r v env)
         else CPOutcome.trap env)) ∧
    (∀ (r : DualReg) (ri : ARMCPRegInfo), dual_entry r = some ri →
      ¬ (r = DualReg.esr ∨ r = DualReg.far) →
      cp_read tvm env ri = CPOutcome.done (bank_slot env.gxf.guarded r env, env) ∧
      cp_write m tvm env ri v =
        CPOutcome.done (if lock_drops m r env then env
          else set_bank_slot env.gxf.guarded r (stored_value r v) env)) := by
  refine ⟨by decide, by decide, by decide, by decide, ?_, ?_⟩
  · intro r ri hr hef
    have hnd : ¬ lock_drops m r env := by
      rintro ⟨hv, _⟩
      rcases hef with h | h <;> rw [h] at hv <;> exact absurd hv (by decide)
    have hs : stored_value r v = v := by
      rcases hef with h | h <;> rw [h] <;> rfl
    have hr1 := dual_entry_read_eq tvm env r ri hr
    have hw1 := dual_entry_write_eq m tvm env r ri v hr
    simp only [dual_entry_check tvm env r ri _ hr, if_pos hef] at hr1 hw1
    rw [if_neg hnd, hs] at hw1
    exact ⟨hr1, hw1⟩
  · intro r ri hr hef
    have hr1 := dual_entry_read_eq tvm env r ri hr
    have hw1 := dual_entry_write_eq m tvm env r ri v hr
    simp only [dual_entry_check tvm env r ri _ hr, if_neg hef, if_true] at hr1 hw1
    exact ⟨hr1, hw1⟩

/-- C16, as stated, fails: the alias entries reach six distinct dual-view
registers, not five. -/
theorem alias_set_is_not_five :
    aliased_regs.Nodup ∧ aliased_regs.length = 6 ∧ ¬ (aliased_regs.length = 5) ∧
    alias_entries.length = 6 := by
  decide

theorem normal_slot_at_eq (off : FieldOffset) (r : DualReg) (env : CPUARMState)
    (h : normal_slot_at off = some r) : CPREG_FIELD64 env off = normal_slot r env := by
  cases off <;> simp [normal_slot_at] at h <;> subst h <;> rfl

/-- C16, amended. The alias register set contains an alias for exactly six of
the seven dual-view registers (tpidr, vbar, spsr, esr, elr, far, under the
names TPIDR_GL11, VBAR_GL11, SPSR_GL11, ESR_GL11, ELR_GL11, FAR_GL11), each a
raw entry on the normal-bank slot of its register, and contains no alias for
the stack pointer or for the entry vector. -/
theorem alias_set_six_of_seven :
    alias_entries.map (fun e => e.name) = alias_names ∧
    aliased_regs = [DualReg.tpidr, DualReg.vbar, DualReg.spsr, DualReg.esr, DualReg.elr,
      DualReg.far] ∧
    aliased_regs.Nodup ∧
    (all_dual_regs.filter (fun r => decide (r ∈ aliased_regs))).length = 6 ∧
    all_dual_regs.length = 7 ∧
    DualReg.sp ∉ aliased_regs ∧
    alias_entry DualReg.sp = none ∧
    (∀ e ∈ alias_entries, e.fieldoffset ≠ some FieldOffset.gxf_enter_el1 ∧
      (e.fieldoffset.bind normal_slot_at).isSome ∧ e.readfn = none ∧ e.writefn = none) ∧
    (∀ r ∈ aliased_regs, ∃ e ∈ alias_entries, alias_entry r = some e ∧
      e.fieldoffset.bind normal_slot_at = some r) ∧
    (∀ (off : FieldOffset) (r : DualReg) (env : CPUARMState),
      normal_slot_at off = some r → CPREG_FIELD64 env off = normal_slot r env) := by
  refine ⟨by decide, by decide, by decide, by decide, by decide, by decide, by decide,
    by decide, by decide, normal_slot_at_eq⟩

theorem set_bank_slot_self (g : Bool) (r : DualReg) (env : CPUARMState) :
    set_bank_slot g r (bank_slot g r env) env = env := by
  cases g <;> cases r <;> rfl

/-- C17. Save and restore is lossless: for each of the seven dual-view
registers and every context (for vbar: every context in which the vbar slot
of the active bank, a `uint64_t`, has its low 5 bits zero), the read handler
returns a value and leaves the context as it is, and the write handler given
that value in the same mode leaves the whole context unchanged. -/
theorem dual_read_write_back (m : Nat) (r : DualReg) (env : CPUARMState)
    (ri : ARMCPRegInfo) (hri : r = DualReg.vbar → vbar_descriptor ri)
    (hu : r = DualReg.vbar → bank_slot env.gxf.guarded DualReg.vbar env < 2 ^ 64)
    (hal : r = DualReg.vbar → bank_slot env.gxf.guarded DualReg.vbar env % 32 = 0) :
    ∃ x, dual_read r env ri = some (x, env) ∧ dual_write m r env ri x = some env := by
  refine ⟨bank_slot env.gxf.guarded r env, ?_, ?_⟩
  · rw [dual_read_eq r env ri hri]
    simp only [bank_slot]
  · rw [dual_write_eq m r env ri _ hri]
    by_cases hd : lock_drops m r env
    · rw [if_pos hd]
    · rw [if_neg hd]
      have hs : stored_value r (bank_slot env.gxf.guarded r env)
          = bank_slot env.gxf.guarded r env := by
        by_cases hr : r = DualReg.vbar
        · subst hr
          simp only [stored_value, if_true]
          rw [and_not_0x1f_eq _ (hu rfl), hal rfl]
          rfl
        · simp [stored_value, hr]
      rw [hs, set_bank_slot_self]

theorem dual_read_write_back_witness :
    (DualReg.vbar = DualReg.vbar → vbar_descriptor (aa64_view reginfo_VBAR)) ∧
    (DualReg.vbar = DualReg.vbar →
      bank_slot (set_guarded env_example true).gxf.guarded DualReg.vbar
        (set_guarded env_example true) < 2 ^ 64) ∧
    (DualReg.vbar = DualReg.vbar →
      bank_slot (set_guarded env_example true).gxf.guarded DualReg.vbar
        (set_guarded env_example true) % 32 = 0) ∧
    ∃ x, dual_read DualReg.vbar (set_guarded env_example true) (aa64_view reginfo_VBAR)
        = some (x, set_guarded env_example true) ∧
      dual_write 1 DualReg.vbar (set_guarded env_example true) (aa64_view reginfo_VBAR) x
        = some (set_guarded env_example true) :=
  ⟨fun _ => vbar_descriptor_VBAR, fun _ => by decide, fun _ => by decide,
   dual_read_write_back 1 DualReg.vbar (set_guarded env_example true)
     (aa64_view reginfo_VBAR) (fun _ => vbar_descriptor_VBAR) (fun _ => by decide)
     (fun _ => by decide)⟩

/-- C18. The entries of `t8030gxf_cp_reginfo` before the sentinel have
pairwise distinct names and pairwise distinct encoding coordinates
`(opc0, opc1, crn, crm, opc2)`, in the table as written and as registered; so
a coordinate tuple resolves to at most one registered entry, and every alias
entry and the entry-vector entry has coordinates different from those of
every dual-view entry. -/
theorem table_entries_distinct :
    (t8030gxf_cp_reginfo.map (fun e => e.name)).Nodup ∧
    (t8030gxf_cp_reginfo.map coordinates).Nodup ∧
    (t8030cpu_init_gxf.map (fun e => e.name)).Nodup ∧
    (t8030cpu_init_gxf.map coordinates).Nodup ∧
    (∀ (c : Nat × Nat × Nat × Nat × Nat) (e1 e2 : ARMCPRegInfo),
      e1 ∈ t8030cpu_init_gxf → e2 ∈ t8030cpu_init_gxf →
      coordinates e1 = c → coordinates e2 = c → e1 = e2) ∧
    (∀ d ∈ dual_entries, ∀ o ∈ alias_entries ++ [aa64_view reginfo_GXF_ENTER_EL1],
      coordinates o ≠ coordinates d) ∧
    dual_entries.length + (alias_entries ++ [aa64_view reginfo_GXF_ENTER_EL1]).length
      = t8030gxf_cp_reginfo.length := by
  have hpair : ∀ e1 ∈ t8030cpu_init_gxf, ∀ e2 ∈ t8030cpu_init_gxf,
      coordinates e1 = coordinates e2 → e1 = e2 := by decide
  refine ⟨by decide, by decide, by decide, by decide, ?_, by decide, by decide⟩
  intro c e1 e2 h1 h2 hc1 hc2
  exact hpair e1 h1 e2 h2 (hc1.trans hc2.symm)

end T8030Gxf
